import Mathlib

/-!
Shallow embedding of the core of the `mlb-fantasy-pipeline` repository
(staged ingestion/transformation pipeline and fantasy-scoring rule engine),
together with theorems settling the specification claims about it.

JavaScript numbers are modeled as rationals (every numeric value this code
computes is produced by +, *, / and round-to-2-decimals on small decimal
inputs, all exact in ℚ), except in the scoring arithmetic, where the
unchecked cast in the rule loop lets non-numeric runtime values through to
the multiplication: numbers there carry the `NaN`-aware `JsNum`.  JS
`null`/`undefined` are both modeled by `StatValue.null`, matching the code
which treats them identically (`value === null || value === undefined`).
JS number-to-string formatting inside the audit `calculation` strings is
abstracted by `toString` on ℚ.
-/

namespace MLB

set_option maxRecDepth 8192

/-! JS string primitives shared by the scoring engine and the ingestion
pipeline. -/

/-- JS `String.prototype.trim`: strip leading and trailing whitespace
(modeled over the character list). -/
def jsTrim (s : String) : String :=
  String.mk (((s.data.dropWhile Char.isWhitespace).reverse.dropWhile
    Char.isWhitespace).reverse)

/-- JS `String.prototype.toLowerCase` (ASCII, matching the tokens this code
compares against). -/
def jsToLower (s : String) : String :=
  String.mk (s.data.map Char.toLower)

/-- JS `String.prototype.toUpperCase` (ASCII). -/
def jsToUpper (s : String) : String :=
  String.mk (s.data.map Char.toUpper)

/-- Value of a non-empty digit run, most significant first. -/
def jsDigitsVal (ds : List Char) : Nat :=
  ds.foldl (fun a c => a * 10 + (c.toNat - 48)) 0

/-- JS `parseInt(s, 10)`: skip leading whitespace, read an optional sign
and then a maximal run of decimal digits; `none` models `NaN` (no digit
found).  Trailing non-digit characters are ignored. -/
def jsParseInt (s : String) : Option Int :=
  let cs := s.data.dropWhile (fun c => c.isWhitespace)
  let signed : Int × List Char :=
    match cs with
    | '-' :: rest => (-1, rest)
    | '+' :: rest => (1, rest)
    | rest => (1, rest)
  let ds := signed.2.takeWhile (fun c => c.isDigit)
  if ds.isEmpty then none else some (signed.1 * (jsDigitsVal ds : Int))

/-- JS `ToNumber` on a string, as exercised when a string-valued property
reaches the arithmetic of `calculateRulePoints`: whitespace-trimmed; the
empty remainder gives 0; an optionally signed all-digit remainder gives its
value; anything else gives `none`, modeling `NaN`.  (This is the
decimal-integer fragment of the JS numeric-string grammar; fractional,
exponent and radix-prefixed literals do not occur in these records.) -/
def jsToNumber (s : String) : Option ℚ :=
  let t := (jsTrim s).data
  if t.isEmpty then some 0
  else
    let signed : ℚ × List Char :=
      match t with
      | '-' :: rest => (-1, rest)
      | '+' :: rest => (1, rest)
      | rest => (1, rest)
    if !signed.2.isEmpty && signed.2.all Char.isDigit then
      some (signed.1 * (jsDigitsVal signed.2 : ℚ))
    else none

/-- Runtime value of a stat field as seen by a JS property read
`stats[name]` on a stat record: numbers, booleans, strings (the identity
columns), objects/functions (the methods every plain object inherits from
`Object.prototype`), and `null`/`undefined` (both modeled by `null`,
matching the code which treats them identically: `value === null ||
value === undefined`). -/
inductive StatValue where
  | num (q : ℚ)
  | bool (b : Bool)
  | str (s : String)
  | obj
  | null
deriving DecidableEq

/-- A JS number as produced by the scoring arithmetic: a rational, or the
IEEE `NaN` that arises when a non-numeric value reaches the multiplication.
(An infinity could only come from a zero divisor, and `rule.perUnit` is
truthiness-tested before the division, so that route is closed.) -/
inductive JsNum where
  | num (q : ℚ)
  | nan
deriving DecidableEq

instance (n : ℕ) : OfNat JsNum n :=
  ⟨JsNum.num (OfNat.ofNat n)⟩

/-- JS `+` on scoring totals: `NaN` absorbs. -/
def JsNum.add : JsNum → JsNum → JsNum
  | JsNum.num a, JsNum.num b => JsNum.num (a + b)
  | _, _ => JsNum.nan

instance : Add JsNum := ⟨JsNum.add⟩

instance : Zero JsNum := ⟨JsNum.num 0⟩

/-- JS `*` by an always-numeric right operand (`rule.points`). -/
def JsNum.mulQ : JsNum → ℚ → JsNum
  | JsNum.num a, b => JsNum.num (a * b)
  | JsNum.nan, _ => JsNum.nan

/-- JS `/` by a numeric divisor (`rule.perUnit`), applied only under its
truthiness guard, hence never with divisor 0. -/
def JsNum.divQ : JsNum → ℚ → JsNum
  | JsNum.num a, u => JsNum.num (a / u)
  | JsNum.nan, _ => JsNum.nan

/-- `ScoringRule` from `src/types/fantasy.ts`: `{stat, points, perUnit?}`. -/
structure ScoringRule where
  stat : String
  points : ℚ
  perUnit : Option ℚ := none
deriving DecidableEq

/-- Comparison operator of a bonus condition (`gte | lte | eq | gt | lt`). -/
inductive BonusOp where
  | gte
  | lte
  | eq
  | gt
  | lt
deriving DecidableEq

/-- `BonusCondition` from `src/types/fantasy.ts`: `{stat, op, value}`. -/
structure BonusCondition where
  stat : String
  op : BonusOp
  value : ℚ
deriving DecidableEq

/-- Combinator of a bonus rule (`AND | OR`). -/
inductive BonusLogic where
  | AND
  | OR
deriving DecidableEq

/-- `BonusRule` from `src/types/fantasy.ts`: `{name, conditions, logic, points}`. -/
structure BonusRule where
  name : String
  conditions : List BonusCondition
  logic : BonusLogic
  points : ℚ
deriving DecidableEq

/-- `FantasyRuleset` from `src/types/fantasy.ts`. -/
structure FantasyRuleset where
  id : String
  name : String
  description : Option String := none
  batting : List ScoringRule
  pitching : List ScoringRule
  bonuses : Option (List BonusRule) := none
deriving DecidableEq

/-- `PointBreakdown` from `src/types/fantasy.ts`.  Its declared field types
are `value: number` and `points: number`, but at runtime the unchecked cast
in the rule loop can put the raw stat value (e.g. a string) in `value` and
`NaN` in `points`, so the fields carry `StatValue` and `JsNum` here. -/
structure PointBreakdown where
  stat : String
  value : StatValue
  points : JsNum
  calculation : String
deriving DecidableEq

/-- `ScoringResult` from `src/types/fantasy.ts` (`totalPoints` can likewise
be `NaN` at runtime, see `PointBreakdown`). -/
structure ScoringResult where
  totalPoints : JsNum
  breakdown : List PointBreakdown
  bonusesApplied : List String
deriving DecidableEq

/-- JS `Math.round`: round to the nearest integer, halves toward +∞. -/
def jsRound (q : ℚ) : ℚ :=
  (Rat.floor (q + 1 / 2) : ℚ)

/-- `Math.round(x * 100) / 100`: round to 2 decimal places. -/
def round2 (q : ℚ) : ℚ :=
  jsRound (q * 100) / 100

/-- `Math.round(x * 100) / 100` on a runtime JS number: `Math.round(NaN)`
is `NaN`. -/
def round2N : JsNum → JsNum
  | JsNum.num q => JsNum.num (round2 q)
  | JsNum.nan => JsNum.nan

/-- JS `ToNumber` of a value reaching the multiplication in
`calculateRulePoints`: numbers pass through, strings parse by `jsToNumber`
(`NaN` for non-numeric), objects and functions give `NaN`.  (Booleans are
coerced, and `null`/`undefined` returned away, before this point, so the
last two cases are unreachable from `calculateRulePoints`.) -/
def toJsNum : StatValue → JsNum
  | StatValue.num q => JsNum.num q
  | StatValue.str s =>
    match jsToNumber s with
    | some q => JsNum.num q
    | none => JsNum.nan
  | StatValue.obj => JsNum.nan
  | StatValue.bool b => JsNum.num (if b then 1 else 0)
  | StatValue.null => JsNum.nan

/-- JS template interpolation of `numValue` into the `calculation` audit
string: numbers via `toString` (abstracted on ℚ), strings verbatim; the
source text of an object or function is abstracted. -/
def numValueRepr : StatValue → String
  | StatValue.num q => toString q
  | StatValue.str s => s
  | StatValue.bool b => if b then "true" else "false"
  | StatValue.obj => "[object]"
  | StatValue.null => "undefined"

/-- The breakdown entry built at the bottom of `calculateRulePoints`:
`value` holds `numValue` as it stands (a number, or the raw string/object
that slipped past the contract), `points` the rounded product, which the
`ToNumber` coercion inside the arithmetic makes `NaN` for non-numeric
values.  `rule.perUnit` is truthiness-tested (`if (rule.perUnit)`), so a
present-but-zero divisor takes the plain-multiplication branch. -/
def ruleEntry (numValue : StatValue) (n : JsNum) (rule : ScoringRule) : PointBreakdown :=
  match rule.perUnit with
  | some u =>
    if u = 0 then
      { stat := rule.stat
        value := numValue
        points := round2N (JsNum.mulQ n rule.points)
        calculation := numValueRepr numValue ++ " * " ++ toString rule.points }
    else
      { stat := rule.stat
        value := numValue
        points := round2N (JsNum.mulQ (JsNum.divQ n u) rule.points)
        calculation := numValueRepr numValue ++ "/" ++ toString u ++ " * " ++
          toString rule.points }
  | none =>
    { stat := rule.stat
      value := numValue
      points := round2N (JsNum.mulQ n rule.points)
      calculation := numValueRepr numValue ++ " * " ++ toString rule.points }

/-- `calculateRulePoints` from `src/scoring/calculator.ts`, over the full
value range the unchecked cast lets through at runtime: a boolean coerces
to 1/0; `null`/`undefined` yield no entry; a numeric 0 yields no entry (the
strict `numValue === 0` test, which no string or object passes — even the
empty string, whose `ToNumber` is 0, produces an entry); every other value
produces an entry via `ruleEntry`. -/
def calculateRulePoints (value : StatValue) (rule : ScoringRule) : Option PointBreakdown :=
  let numValue : StatValue :=
    match value with
    | StatValue.bool b => StatValue.num (if b then 1 else 0)
    | v => v
  match numValue with
  | StatValue.null => none
  | StatValue.num q =>
    if q = 0 then none else some (ruleEntry (StatValue.num q) (JsNum.num q) rule)
  | v => some (ruleEntry v (toJsNum v) rule)

/-- A bonus condition's view of a stat value inside
`evaluateBonusConditions`: booleans become 1/0, `null`/`undefined` become
0, and any other non-number — a string, an inherited method — also becomes
0 (`typeof value === 'number' ? value : 0`). -/
def bonusNumValue : StatValue → ℚ
  | StatValue.bool b => if b then 1 else 0
  | StatValue.null => 0
  | StatValue.num q => q
  | StatValue.str _ => 0
  | StatValue.obj => 0

/-- One condition's comparison inside `evaluateBonusConditions`. -/
def bonusCondResult (field : String → StatValue) (c : BonusCondition) : Bool :=
  let numValue := bonusNumValue (field c.stat)
  match c.op with
  | BonusOp.gte => numValue ≥ c.value
  | BonusOp.lte => numValue ≤ c.value
  | BonusOp.gt => numValue > c.value
  | BonusOp.lt => numValue < c.value
  | BonusOp.eq => numValue = c.value

/-- `evaluateBonusConditions` from `src/scoring/calculator.ts`: map every
condition to a boolean (reading the named stat directly off the record) and
combine with `every` for `AND`, `some` for `OR`. -/
def evaluateBonusConditions (field : String → StatValue) (bonus : BonusRule) : Bool :=
  let results := bonus.conditions.map (bonusCondResult field)
  match bonus.logic with
  | BonusLogic.AND => results.all id
  | BonusLogic.OR => results.any id

/-- `BatterGameStats` from `src/types/database.ts` (the `created_at`
timestamp is omitted: it is never read by the code embedded here). -/
structure BatterGameStats where
  id : ℚ
  game_id : String
  player_id : String
  team_id : String
  is_home : Bool
  opponent_id : Option String
  plate_appearances : ℚ
  at_bats : ℚ
  runs : ℚ
  hits : ℚ
  doubles : ℚ
  triples : ℚ
  home_runs : ℚ
  runs_batted_in : ℚ
  sacrifice_hits : ℚ
  sacrifice_flies : ℚ
  hit_by_pitch : ℚ
  walks : ℚ
  intentional_walks : ℚ
  strikeouts : ℚ
  stolen_bases : ℚ
  caught_stealing : ℚ
  grounded_into_dp : ℚ
  reached_on_interference : ℚ
  reached_on_error : ℚ
  is_dh : Bool
  is_ph : Bool
  is_pr : Bool
  team_won : Option Bool
  team_lost : Option Bool
  team_tied : Option Bool
  stat_type : Option String
  lineup_position : Option ℚ
  batting_seq : Option ℚ
deriving DecidableEq

/-- `PitcherGameStats` from `src/types/database.ts` (`created_at` omitted,
as above). -/
structure PitcherGameStats where
  id : ℚ
  game_id : String
  player_id : String
  team_id : String
  is_home : Bool
  opponent_id : Option String
  outs_pitched : ℚ
  batters_faced : ℚ
  hits_allowed : ℚ
  doubles_allowed : ℚ
  triples_allowed : ℚ
  home_runs_allowed : ℚ
  runs_allowed : ℚ
  earned_runs : ℚ
  walks : ℚ
  intentional_walks : ℚ
  strikeouts : ℚ
  hit_batters : ℚ
  wild_pitches : ℚ
  balks : ℚ
  sacrifice_hits_allowed : ℚ
  sacrifice_flies_allowed : ℚ
  stolen_bases_allowed : ℚ
  caught_stealing : ℚ
  won : Bool
  lost : Bool
  saved : Bool
  game_started : Bool
  game_finished : Bool
  complete_game : Bool
  team_won : Option Bool
  team_lost : Option Bool
  team_tied : Option Bool
  stat_type : Option String
  pitching_seq : Option ℚ
deriving DecidableEq

/-- Conversion of an optional boolean field (`boolean | null`) to the
scoring value space. -/
def optBoolValue : Option Bool → StatValue
  | some b => StatValue.bool b
  | none => StatValue.null

/-- Conversion of an optional numeric field (`number | null`) to the
scoring value space. -/
def optNumValue : Option ℚ → StatValue
  | some q => StatValue.num q
  | none => StatValue.null

/-- Conversion of an optional string field (`string | null`) to the scoring
value space. -/
def optStrValue : Option String → StatValue
  | some s => StatValue.str s
  | none => StatValue.null

/-- Property names every plain JS object inherits from `Object.prototype`;
on the stat records and on the `statMapping` object literals both the `in`
operator and a plain property read see these names in addition to the own
keys. -/
def objectPrototypeKeys : List String :=
  ["constructor", "hasOwnProperty", "isPrototypeOf", "propertyIsEnumerable",
   "toLocaleString", "toString", "valueOf",
   "__defineGetter__", "__defineSetter__", "__lookupGetter__",
   "__lookupSetter__", "__proto__"]

/-- JS property read `stats[name]` on a `BatterGameStats` record: declared
properties give their runtime values (numbers, booleans, strings, `null`),
a name inherited from `Object.prototype` gives the inherited method
(`StatValue.obj`), and any other name reads as `undefined`
(`StatValue.null`).  The `created_at` timestamp is omitted from the record
(nothing embedded here scores it), so its name falls to the default case. -/
def batterField (s : BatterGameStats) : String → StatValue
  | "id" => StatValue.num s.id
  | "game_id" => StatValue.str s.game_id
  | "player_id" => StatValue.str s.player_id
  | "team_id" => StatValue.str s.team_id
  | "opponent_id" => optStrValue s.opponent_id
  | "stat_type" => optStrValue s.stat_type
  | "is_home" => StatValue.bool s.is_home
  | "plate_appearances" => StatValue.num s.plate_appearances
  | "at_bats" => StatValue.num s.at_bats
  | "runs" => StatValue.num s.runs
  | "hits" => StatValue.num s.hits
  | "doubles" => StatValue.num s.doubles
  | "triples" => StatValue.num s.triples
  | "home_runs" => StatValue.num s.home_runs
  | "runs_batted_in" => StatValue.num s.runs_batted_in
  | "sacrifice_hits" => StatValue.num s.sacrifice_hits
  | "sacrifice_flies" => StatValue.num s.sacrifice_flies
  | "hit_by_pitch" => StatValue.num s.hit_by_pitch
  | "walks" => StatValue.num s.walks
  | "intentional_walks" => StatValue.num s.intentional_walks
  | "strikeouts" => StatValue.num s.strikeouts
  | "stolen_bases" => StatValue.num s.stolen_bases
  | "caught_stealing" => StatValue.num s.caught_stealing
  | "grounded_into_dp" => StatValue.num s.grounded_into_dp
  | "reached_on_interference" => StatValue.num s.reached_on_interference
  | "reached_on_error" => StatValue.num s.reached_on_error
  | "is_dh" => StatValue.bool s.is_dh
  | "is_ph" => StatValue.bool s.is_ph
  | "is_pr" => StatValue.bool s.is_pr
  | "team_won" => optBoolValue s.team_won
  | "team_lost" => optBoolValue s.team_lost
  | "team_tied" => optBoolValue s.team_tied
  | "lineup_position" => optNumValue s.lineup_position
  | "batting_seq" => optNumValue s.batting_seq
  | n => if objectPrototypeKeys.contains n then StatValue.obj else StatValue.null

/-- JS property read `stats[name]` on a `PitcherGameStats` record (same
conventions as `batterField`). -/
def pitcherField (s : PitcherGameStats) : String → StatValue
  | "id" => StatValue.num s.id
  | "game_id" => StatValue.str s.game_id
  | "player_id" => StatValue.str s.player_id
  | "team_id" => StatValue.str s.team_id
  | "opponent_id" => optStrValue s.opponent_id
  | "stat_type" => optStrValue s.stat_type
  | "is_home" => StatValue.bool s.is_home
  | "outs_pitched" => StatValue.num s.outs_pitched
  | "batters_faced" => StatValue.num s.batters_faced
  | "hits_allowed" => StatValue.num s.hits_allowed
  | "doubles_allowed" => StatValue.num s.doubles_allowed
  | "triples_allowed" => StatValue.num s.triples_allowed
  | "home_runs_allowed" => StatValue.num s.home_runs_allowed
  | "runs_allowed" => StatValue.num s.runs_allowed
  | "earned_runs" => StatValue.num s.earned_runs
  | "walks" => StatValue.num s.walks
  | "intentional_walks" => StatValue.num s.intentional_walks
  | "strikeouts" => StatValue.num s.strikeouts
  | "hit_batters" => StatValue.num s.hit_batters
  | "wild_pitches" => StatValue.num s.wild_pitches
  | "balks" => StatValue.num s.balks
  | "sacrifice_hits_allowed" => StatValue.num s.sacrifice_hits_allowed
  | "sacrifice_flies_allowed" => StatValue.num s.sacrifice_flies_allowed
  | "stolen_bases_allowed" => StatValue.num s.stolen_bases_allowed
  | "caught_stealing" => StatValue.num s.caught_stealing
  | "won" => StatValue.bool s.won
  | "lost" => StatValue.bool s.lost
  | "saved" => StatValue.bool s.saved
  | "game_started" => StatValue.bool s.game_started
  | "game_finished" => StatValue.bool s.game_finished
  | "complete_game" => StatValue.bool s.complete_game
  | "team_won" => optBoolValue s.team_won
  | "team_lost" => optBoolValue s.team_lost
  | "team_tied" => optBoolValue s.team_tied
  | "pitching_seq" => optNumValue s.pitching_seq
  | n => if objectPrototypeKeys.contains n then StatValue.obj else StatValue.null

/-- The `statMapping` table of `calculateBattingPoints`
(`src/scoring/calculator.ts`): stat names known to the batting domain, each
mapped to the property it resolves to. -/
def battingStatMapping : String → Option String
  | "plate_appearances" => some "plate_appearances"
  | "at_bats" => some "at_bats"
  | "runs" => some "runs"
  | "hits" => some "hits"
  | "doubles" => some "doubles"
  | "triples" => some "triples"
  | "home_runs" => some "home_runs"
  | "runs_batted_in" => some "runs_batted_in"
  | "sacrifice_hits" => some "sacrifice_hits"
  | "sacrifice_flies" => some "sacrifice_flies"
  | "hit_by_pitch" => some "hit_by_pitch"
  | "walks" => some "walks"
  | "intentional_walks" => some "intentional_walks"
  | "strikeouts" => some "strikeouts"
  | "stolen_bases" => some "stolen_bases"
  | "caught_stealing" => some "caught_stealing"
  | "grounded_into_dp" => some "grounded_into_dp"
  | "reached_on_interference" => some "reached_on_interference"
  | "reached_on_error" => some "reached_on_error"
  | _ => none

/-- The `statMapping` table of `calculatePitchingPoints`
(`src/scoring/calculator.ts`), including the `innings_pitched` and `save`
aliases. -/
def pitchingStatMapping : String → Option String
  | "outs_pitched" => some "outs_pitched"
  | "innings_pitched" => some "outs_pitched"
  | "batters_faced" => some "batters_faced"
  | "hits_allowed" => some "hits_allowed"
  | "doubles_allowed" => some "doubles_allowed"
  | "triples_allowed" => some "triples_allowed"
  | "home_runs_allowed" => some "home_runs_allowed"
  | "runs_allowed" => some "runs_allowed"
  | "earned_runs" => some "earned_runs"
  | "walks" => some "walks"
  | "intentional_walks" => some "intentional_walks"
  | "strikeouts" => some "strikeouts"
  | "hit_batters" => some "hit_batters"
  | "wild_pitches" => some "wild_pitches"
  | "balks" => some "balks"
  | "sacrifice_hits_allowed" => some "sacrifice_hits_allowed"
  | "sacrifice_flies_allowed" => some "sacrifice_flies_allowed"
  | "stolen_bases_allowed" => some "stolen_bases_allowed"
  | "caught_stealing" => some "caught_stealing"
  | "won" => some "won"
  | "lost" => some "lost"
  | "saved" => some "saved"
  | "save" => some "saved"
  | "game_started" => some "game_started"
  | "game_finished" => some "game_finished"
  | "complete_game" => some "complete_game"
  | _ => none

/-- The base-rule loop shared by `calculateBattingPoints` and
`calculatePitchingPoints`: resolve each rule's stat through the domain
mapping table — `statMapping[rule.stat] ?? rule.stat`, so a name absent
from the table falls back to a direct property read — score it with
`calculateRulePoints`, and accumulate total and breakdown in rule order. -/
def applyRules (field : String → StatValue) (mapping : String → Option String) :
    List ScoringRule → JsNum × List PointBreakdown
  | [] => (JsNum.num 0, [])
  | rule :: rest =>
    match calculateRulePoints (field ((mapping rule.stat).getD rule.stat)) rule with
    | some r =>
      (JsNum.add r.points (applyRules field mapping rest).1,
       r :: (applyRules field mapping rest).2)
    | none => applyRules field mapping rest

/-- `isBattingBonus` test inlined in `calculateBattingPoints`:
`c.stat in statMapping`, the JS `in` operator walking the prototype chain —
true for the table's own keys and for every name inherited from
`Object.prototype`. -/
def isBattingBonus (b : BonusRule) : Bool :=
  b.conditions.any (fun c =>
    (battingStatMapping c.stat).isSome || objectPrototypeKeys.contains c.stat)

/-- `isPitchingBonus` test inlined in `calculatePitchingPoints` (same `in`
semantics as `isBattingBonus`). -/
def isPitchingBonus (b : BonusRule) : Bool :=
  b.conditions.any (fun c =>
    (pitchingStatMapping c.stat).isSome || objectPrototypeKeys.contains c.stat)

/-- The breakdown entry appended for an applied bonus. -/
def bonusEntry (b : BonusRule) : PointBreakdown :=
  { stat := "bonus:" ++ b.name
    value := StatValue.num 1
    points := JsNum.num b.points
    calculation := "Bonus: " ++ b.name }

/-- The bonus loop shared by `calculateBattingPoints` and
`calculatePitchingPoints`: a bonus that is domain-relevant and whose
conditions are satisfied adds its points, a `bonus:<name>` breakdown entry,
and its name to `bonusesApplied`, in declaration order. -/
def applyBonuses (field : String → StatValue) (relevant : BonusRule → Bool) :
    List BonusRule → ℚ × List PointBreakdown × List String
  | [] => (0, [], [])
  | b :: rest =>
    if relevant b && evaluateBonusConditions field b then
      (b.points + (applyBonuses field relevant rest).1,
       bonusEntry b :: (applyBonuses field relevant rest).2.1,
       b.name :: (applyBonuses field relevant rest).2.2)
    else
      applyBonuses field relevant rest

/-- `calculateBattingPoints` from `src/scoring/calculator.ts`. -/
def calculateBattingPoints (stats : BatterGameStats) (ruleset : FantasyRuleset) :
    ScoringResult :=
  let field := batterField stats
  let (baseTotal, baseBd) := applyRules field battingStatMapping ruleset.batting
  let (bonusTotal, bonusBd, names) :=
    applyBonuses field isBattingBonus (ruleset.bonuses.getD [])
  { totalPoints := round2N (JsNum.add baseTotal (JsNum.num bonusTotal))
    breakdown := baseBd ++ bonusBd
    bonusesApplied := names }

/-- `calculatePitchingPoints` from `src/scoring/calculator.ts`. -/
def calculatePitchingPoints (stats : PitcherGameStats) (ruleset : FantasyRuleset) :
    ScoringResult :=
  let field := pitcherField stats
  let (baseTotal, baseBd) := applyRules field pitchingStatMapping ruleset.pitching
  let (bonusTotal, bonusBd, names) :=
    applyBonuses field isPitchingBonus (ruleset.bonuses.getD [])
  { totalPoints := round2N (JsNum.add baseTotal (JsNum.num bonusTotal))
    breakdown := baseBd ++ bonusBd
    bonusesApplied := names }

/-! JS parsing primitives used by the ingestion pipeline.  JS
`string | undefined | null` parameters are modeled as `Option String`
(`none` for `null`/`undefined`); the empty string, which is falsy in JS and
hits the same early exit, is handled explicitly inside each function. -/

/-- `parseNum` from `src/ingest/transformer.ts`: empty/whitespace/invalid
strings parse to `0`, otherwise `parseInt` base 10. -/
def parseNum (val : Option String) : Int :=
  match val with
  | none => 0
  | some v =>
    if v == "" then 0
    else if jsTrim v == "" then 0
    else (jsParseInt v).getD 0

/-- `parseBool` from `src/ingest/transformer.ts`: empty/whitespace strings
are `false`, otherwise the string must be exactly `1` or case-insensitively
`true` or `y`. -/
def parseBool (val : Option String) : Bool :=
  match val with
  | none => false
  | some v =>
    if v == "" then false
    else if jsTrim v == "" then false
    else v == "1" || jsToLower v == "true" || jsToLower v == "y"

/-- `parseNullableNum` from `src/ingest/transformer.ts`: empty/whitespace
strings give `null`, invalid numbers give `null`, otherwise the parsed
integer. -/
def parseNullableNum (val : Option String) : Option Int :=
  match val with
  | none => none
  | some v =>
    if v == "" then none
    else if jsTrim v == "" then none
    else jsParseInt v

/-- `parseNullableBool` from `src/ingest/transformer.ts`: empty/whitespace
strings give `null`, otherwise the `parseBool` token test. -/
def parseNullableBool (val : Option String) : Option Bool :=
  match val with
  | none => none
  | some v =>
    if v == "" then none
    else if jsTrim v == "" then none
    else some (v == "1" || jsToLower v == "true" || jsToLower v == "y")

/-- `RawPlayingRow` from `src/types/retrosplits.ts`: one row of the unified
`playing-YYYY.csv` source, every column a string.  Dotted CSV column names
(`game.key`, `team.alignment`, ...) are rendered with underscores.  The
TypeScript index signature admitting further unused `F_*` columns has no
counterpart here (those columns are never read). -/
structure RawPlayingRow where
  game_key : String
  game_source : String
  game_date : String
  game_number : String
  appear_date : String
  site_key : String
  season_phase : String
  team_alignment : String
  team_key : String
  opponent_key : String
  person_key : String
  slot : String
  seq : String
  B_G : String
  B_PA : String
  B_AB : String
  B_R : String
  B_H : String
  B_TB : String
  B_2B : String
  B_3B : String
  B_HR : String
  B_HR4 : String
  B_RBI : String
  B_GW : String
  B_BB : String
  B_IBB : String
  B_SO : String
  B_GDP : String
  B_HP : String
  B_SH : String
  B_SF : String
  B_SB : String
  B_CS : String
  B_XI : String
  B_G_DH : String
  B_G_PH : String
  B_G_PR : String
  P_G : String
  P_GS : String
  P_CG : String
  P_SHO : String
  P_GF : String
  P_W : String
  P_L : String
  P_SV : String
  P_OUT : String
  P_TBF : String
  P_AB : String
  P_R : String
  P_ER : String
  P_H : String
  P_TB : String
  P_2B : String
  P_3B : String
  P_HR : String
  P_HR4 : String
  P_BB : String
  P_IBB : String
  P_SO : String
  P_GDP : String
  P_HP : String
  P_SH : String
  P_SF : String
  P_XI : String
  P_WP : String
  P_BK : String
  P_IR : String
  P_IRS : String
  P_GO : String
  P_AO : String
  P_PITCH : String
  P_STRIKE : String
deriving DecidableEq

/-- `RawBattingRow` from `src/types/retrosplits.ts`: the internal batting
CSV row shape. -/
structure RawBattingRow where
  gid : String
  id : String
  team : String
  date : String
  number : String
  site : String
  vishome : String
  opp : String
  b_pa : String
  b_ab : String
  b_r : String
  b_h : String
  b_d : String
  b_t : String
  b_hr : String
  b_rbi : String
  b_sh : String
  b_sf : String
  b_hbp : String
  b_w : String
  b_iw : String
  b_k : String
  b_sb : String
  b_cs : String
  b_gdp : String
  b_xi : String
  b_roe : String
  dh : String
  ph : String
  pr : String
  win : String
  loss : String
  tie : String
  gametype : String
  box : String
  pbp : String
  stattype : String
  b_lp : String
  b_seq : String
deriving DecidableEq

/-- `RawPitchingRow` from `src/types/retrosplits.ts`: the internal pitching
CSV row shape. -/
structure RawPitchingRow where
  gid : String
  id : String
  team : String
  date : String
  number : String
  site : String
  vishome : String
  opp : String
  p_ipouts : String
  p_noout : String
  p_bfp : String
  p_h : String
  p_d : String
  p_t : String
  p_hr : String
  p_r : String
  p_er : String
  p_w : String
  p_iw : String
  p_k : String
  p_hbp : String
  p_wp : String
  p_bk : String
  p_sh : String
  p_sf : String
  p_sb : String
  p_cs : String
  p_pb : String
  wp : String
  lp : String
  save : String
  gs : String
  gf : String
  cg : String
  win : String
  loss : String
  tie : String
  gametype : String
  box : String
  pbp : String
  stattype : String
  p_seq : String
deriving DecidableEq

/-- `toBattingRow` from `src/types/retrosplits.ts`: project a unified
playing row to the batting shape (columns not available in the playing file
become the empty string). -/
def toBattingRow (row : RawPlayingRow) : RawBattingRow :=
  { gid := row.game_key
    id := row.person_key
    team := row.team_key
    date := row.game_date
    number := row.game_number
    site := row.site_key
    vishome := if row.team_alignment == "1" then "H" else "V"
    opp := row.opponent_key
    b_pa := row.B_PA
    b_ab := row.B_AB
    b_r := row.B_R
    b_h := row.B_H
    b_d := row.B_2B
    b_t := row.B_3B
    b_hr := row.B_HR
    b_rbi := row.B_RBI
    b_sh := row.B_SH
    b_sf := row.B_SF
    b_hbp := row.B_HP
    b_w := row.B_BB
    b_iw := row.B_IBB
    b_k := row.B_SO
    b_sb := row.B_SB
    b_cs := row.B_CS
    b_gdp := row.B_GDP
    b_xi := row.B_XI
    b_roe := ""
    dh := row.B_G_DH
    ph := row.B_G_PH
    pr := row.B_G_PR
    win := ""
    loss := ""
    tie := ""
    gametype := row.season_phase
    box := ""
    pbp := ""
    stattype := ""
    b_lp := row.slot
    b_seq := row.seq }

/-- `toPitchingRow` from `src/types/retrosplits.ts`: project a unified
playing row to the pitching shape. -/
def toPitchingRow (row : RawPlayingRow) : RawPitchingRow :=
  { gid := row.game_key
    id := row.person_key
    team := row.team_key
    date := row.game_date
    number := row.game_number
    site := row.site_key
    vishome := if row.team_alignment == "1" then "H" else "V"
    opp := row.opponent_key
    p_ipouts := row.P_OUT
    p_noout := ""
    p_bfp := row.P_TBF
    p_h := row.P_H
    p_d := row.P_2B
    p_t := row.P_3B
    p_hr := row.P_HR
    p_r := row.P_R
    p_er := row.P_ER
    p_w := row.P_BB
    p_iw := row.P_IBB
    p_k := row.P_SO
    p_hbp := row.P_HP
    p_wp := row.P_WP
    p_bk := row.P_BK
    p_sh := row.P_SH
    p_sf := row.P_SF
    p_sb := ""
    p_cs := ""
    p_pb := ""
    wp := row.P_W
    lp := row.P_L
    save := row.P_SV
    gs := row.P_GS
    gf := row.P_GF
    cg := row.P_CG
    win := ""
    loss := ""
    tie := ""
    gametype := row.season_phase
    box := ""
    pbp := ""
    stattype := ""
    p_seq := row.seq }

/-- `hasBattingStats` from `src/types/retrosplits.ts`:
`parseInt(row.B_G, 10)` is a number (not `NaN`) and greater than 0. -/
def hasBattingStats (row : RawPlayingRow) : Bool :=
  match jsParseInt row.B_G with
  | some bg => decide (0 < bg)
  | none => false

/-- `hasPitchingStats` from `src/types/retrosplits.ts`:
`parseInt(row.P_G, 10)` is a number (not `NaN`) and greater than 0. -/
def hasPitchingStats (row : RawPlayingRow) : Bool :=
  match jsParseInt row.P_G with
  | some pg => decide (0 < pg)
  | none => false

/-- The per-row classification step of `loadPlayingToStaging`
(`src/ingest/staging.ts`): a unified row contributes one batting row when
`hasBattingStats` holds, one pitching row when `hasPitchingStats` holds
(so zero, one, or two domain rows, one of each in the two-way case). -/
def classifyRow (row : RawPlayingRow) : List RawBattingRow × List RawPitchingRow :=
  ((if hasBattingStats row then [toBattingRow row] else []),
   (if hasPitchingStats row then [toPitchingRow row] else []))

/-- A row of the `staging_batting` table as read back by
`transformBattingData` (`src/ingest/transformer.ts`, `StagingBattingRow`,
plus the bookkeeping columns of migration 002: `batch_id`, `source_file`,
`row_num`, `processed`; the `ingested_at` timestamp is never read and is
omitted).  `id` is the SERIAL primary key, assigned in insertion order. -/
structure StagingBattingRow where
  id : Nat
  batch_id : String
  source_file : String
  row_num : Nat
  gid : String
  player_id : String
  team : String
  game_date : String
  game_number : String
  site : String
  vishome : String
  opp : String
  b_pa : String
  b_ab : String
  b_r : String
  b_h : String
  b_d : String
  b_t : String
  b_hr : String
  b_rbi : String
  b_sh : String
  b_sf : String
  b_hbp : String
  b_w : String
  b_iw : String
  b_k : String
  b_sb : String
  b_cs : String
  b_gdp : String
  b_xi : String
  b_roe : String
  dh : String
  ph : String
  pr : String
  win : String
  loss : String
  tie : String
  gametype : String
  box : String
  pbp : String
  stattype : String
  b_lp : String
  b_seq : String
  processed : Bool
deriving DecidableEq

/-- `GameInsert` from `src/db/queries/games.ts`. -/
structure GameInsert where
  game_id : String
  game_date : String
  game_number : Int
  site : Option String
  home_team_id : Option String
  away_team_id : Option String
  game_type : Option String
  has_box : Bool
  has_pbp : Bool
deriving DecidableEq

/-- JS `x || null` on a string: the empty string is falsy and becomes
`null`. -/
def strOrNull (s : String) : Option String :=
  if s == "" then none else some s

/-- The `GameInsert` built for a staging batting row inside
`transformBattingData` (`src/ingest/transformer.ts` lines 182-199):
home/away teams from the `vishome` alignment flag, `has_box` through
`parseBool`, and `has_pbp` true exactly when the `pbp` column is `y` or
`d`. -/
def deriveGame (row : StagingBattingRow) : GameInsert :=
  let isHome := jsToUpper row.vishome == "H"
  let homeTeam := if isHome then row.team else row.opp
  let awayTeam := if isHome then row.opp else row.team
  { game_id := row.gid
    game_date := row.game_date
    game_number := parseNum (some row.game_number)
    site := strOrNull row.site
    home_team_id := strOrNull homeTeam
    away_team_id := strOrNull awayTeam
    game_type := strOrNull row.gametype
    has_box := parseBool (some row.box)
    has_pbp := row.pbp == "y" || row.pbp == "d" }

/-- `upsertGame` from `src/db/queries/games.ts`: insert on a fresh
`game_id`; on conflict update only `has_box`/`has_pbp`, each OR-ed with the
stored value (`EXCLUDED.has_box OR games.has_box`).  The `games` table is
modeled as a list unique in `game_id` (its primary key). -/
def upsertGame (store : List GameInsert) (game : GameInsert) : List GameInsert :=
  if store.any (fun g => g.game_id == game.game_id) then
    store.map (fun g =>
      if g.game_id == game.game_id then
        { g with has_box := game.has_box || g.has_box
                 has_pbp := game.has_pbp || g.has_pbp }
      else g)
  else
    store ++ [game]

/-- Row lookup by primary key in the modeled `games` table. -/
def findGame (store : List GameInsert) (gid : String) : Option GameInsert :=
  store.find? (fun g => g.game_id == gid)

/-- `BatterStatsInsert` from `src/db/queries/stats.ts`. -/
structure BatterStatsInsert where
  game_id : String
  player_id : String
  team_id : String
  is_home : Bool
  opponent_id : Option String
  plate_appearances : Int
  at_bats : Int
  runs : Int
  hits : Int
  doubles : Int
  triples : Int
  home_runs : Int
  runs_batted_in : Int
  sacrifice_hits : Int
  sacrifice_flies : Int
  hit_by_pitch : Int
  walks : Int
  intentional_walks : Int
  strikeouts : Int
  stolen_bases : Int
  caught_stealing : Int
  grounded_into_dp : Int
  reached_on_interference : Int
  reached_on_error : Int
  is_dh : Bool
  is_ph : Bool
  is_pr : Bool
  team_won : Option Bool
  team_lost : Option Bool
  team_tied : Option Bool
  stat_type : Option String
  lineup_position : Option Int
  batting_seq : Option Int
deriving DecidableEq

/-- Key equality for the `(game_id, player_id, stat_type)` conflict target
of `batter_game_stats`.  (Postgres never matches two NULL `stat_type`
values on a unique index; the pipeline embedded here only ever produces
rows through `transformBattingData`, so this simplification matters only
for the comparison of two `none` keys, which the claims never exercise.) -/
def sameBatterKey (a b : BatterStatsInsert) : Bool :=
  a.game_id == b.game_id && a.player_id == b.player_id && a.stat_type == b.stat_type

/-- `upsertBatterStats` from `src/db/queries/stats.ts`: insert, or on key
conflict overwrite every stat column with the incoming values
(last-write-wins). -/
def upsertBatterStats (store : List BatterStatsInsert) (stats : BatterStatsInsert) :
    List BatterStatsInsert :=
  if store.any (fun r => sameBatterKey r stats) then
    store.map (fun r => if sameBatterKey r stats then stats else r)
  else
    store ++ [stats]

/-- The `BatterStatsInsert` built from one staging row inside
`transformBattingData` (`src/ingest/transformer.ts` lines 217-251). -/
def batterStatsOfRow (row : StagingBattingRow) : BatterStatsInsert :=
  { game_id := row.gid
    player_id := row.player_id
    team_id := row.team
    is_home := jsToUpper row.vishome == "H"
    opponent_id := strOrNull row.opp
    plate_appearances := parseNum (some row.b_pa)
    at_bats := parseNum (some row.b_ab)
    runs := parseNum (some row.b_r)
    hits := parseNum (some row.b_h)
    doubles := parseNum (some row.b_d)
    triples := parseNum (some row.b_t)
    home_runs := parseNum (some row.b_hr)
    runs_batted_in := parseNum (some row.b_rbi)
    sacrifice_hits := parseNum (some row.b_sh)
    sacrifice_flies := parseNum (some row.b_sf)
    hit_by_pitch := parseNum (some row.b_hbp)
    walks := parseNum (some row.b_w)
    intentional_walks := parseNum (some row.b_iw)
    strikeouts := parseNum (some row.b_k)
    stolen_bases := parseNum (some row.b_sb)
    caught_stealing := parseNum (some row.b_cs)
    grounded_into_dp := parseNum (some row.b_gdp)
    reached_on_interference := parseNum (some row.b_xi)
    reached_on_error := parseNum (some row.b_roe)
    is_dh := parseBool (some row.dh)
    is_ph := parseBool (some row.ph)
    is_pr := parseBool (some row.pr)
    team_won := parseNullableBool (some row.win)
    team_lost := parseNullableBool (some row.loss)
    team_tied := parseNullableBool (some row.tie)
    stat_type := strOrNull row.stattype
    lineup_position := parseNullableNum (some row.b_lp)
    batting_seq := parseNullableNum (some row.b_seq) }

/-- A row of the `ingestion_batches` table (migration 002).  The
`started_at`/`completed_at` timestamps carry no information the claims
read beyond presence, so `completed_at` is modeled as a set-flag and
`started_at` is omitted.  `batch_id` (a UUID primary key) is modeled as a
`Nat` fresh per insert. -/
structure IngestionBatchRow where
  batch_id : Nat
  source_type : String
  source_file : String
  year : Int
  status : String
  total_rows : Option Int
  processed_rows : Int
  error_message : Option String
  completed_at : Bool
deriving DecidableEq

/-- The `updates` argument of `updateIngestionBatch`
(`src/ingest/staging.ts`). -/
structure BatchUpdates where
  status : Option String := none
  totalRows : Option Int := none
  processedRows : Option Int := none
  errorMessage : Option String := none
deriving DecidableEq

/-- `createIngestionBatch` from `src/ingest/staging.ts`: INSERT a new batch
row with explicit status `in_progress` (the table's `pending` default is
overridden by the explicit column) and the table defaults
`processed_rows = 0`, `total_rows/error_message/completed_at` NULL;
returns the fresh `batch_id`. -/
def createIngestionBatch (store : List IngestionBatchRow) (type : String) (year : Int)
    (sourceFile : String) : Nat × List IngestionBatchRow :=
  let id := store.length
  (id,
   store ++ [{ batch_id := id
               source_type := type
               source_file := sourceFile
               year := year
               status := "in_progress"
               total_rows := none
               processed_rows := 0
               error_message := none
               completed_at := false }])

/-- The three UPDATE branches of `updateIngestionBatch`
(`src/ingest/staging.ts`) applied to one row: `completed` also stamps
`completed_at` and COALESCEs the counters; `failed` sets the error message
directly (even to NULL when absent); any other update COALESCEs status and
counters. -/
def applyBatchUpdate (b : IngestionBatchRow) (updates : BatchUpdates) : IngestionBatchRow :=
  if updates.status == some "completed" then
    { b with status := "completed"
             total_rows := match updates.totalRows with
               | some t => some t
               | none => b.total_rows
             processed_rows := updates.processedRows.getD b.processed_rows
             completed_at := true }
  else if updates.status == some "failed" then
    { b with status := "failed"
             error_message := updates.errorMessage }
  else
    { b with status := updates.status.getD b.status
             total_rows := match updates.totalRows with
               | some t => some t
               | none => b.total_rows
             processed_rows := updates.processedRows.getD b.processed_rows }

/-- `updateIngestionBatch` from `src/ingest/staging.ts`: apply the update
to the row with the given `batch_id`. -/
def updateIngestionBatch (store : List IngestionBatchRow) (batchId : Nat)
    (updates : BatchUpdates) : List IngestionBatchRow :=
  store.map (fun b => if b.batch_id == batchId then applyBatchUpdate b updates else b)

/-- Row lookup by primary key in the modeled `ingestion_batches` table. -/
def findBatch (store : List IngestionBatchRow) (batchId : Nat) : Option IngestionBatchRow :=
  store.find? (fun b => b.batch_id == batchId)

/-- `hasCompletedIngestion` from `src/ingest/staging.ts`:
`COUNT(*) > 0` over batches of this type and year with status
`completed`. -/
def hasCompletedIngestion (store : List IngestionBatchRow) (type : String) (year : Int) :
    Bool :=
  store.any (fun b => b.source_type == type && b.year == year && b.status == "completed")

/-- `TRANSFORM_BATCH_SIZE` from `src/ingest/transformer.ts`. -/
def TRANSFORM_BATCH_SIZE : Nat := 500

/-- The `WHERE batch_id = ... AND processed = false` predicate of the
transformer's page query. -/
def stagingUnprocessed (batchId : String) (r : StagingBattingRow) : Bool :=
  r.batch_id == batchId && !r.processed

/-- The transformer's page query
(`SELECT ... WHERE batch_id AND NOT processed ORDER BY id LIMIT 500 OFFSET n`).
The table list is kept in `id` order (ids are SERIAL, assigned in insertion
order), so `ORDER BY id` is the list order. -/
def pageSelect (table : List StagingBattingRow) (batchId : String) (offset : Nat) :
    List StagingBattingRow :=
  ((table.filter (stagingUnprocessed batchId)).drop offset).take TRANSFORM_BATCH_SIZE

/-- The transformer's `UPDATE staging_batting SET processed = true WHERE id = ANY(...)`. -/
def markProcessed (table : List StagingBattingRow) (ids : List Nat) :
    List StagingBattingRow :=
  table.map (fun r => if ids.contains r.id then { r with processed := true } else r)

/-- Marking rows processed removes exactly the rows with those ids from the
unprocessed view of the table. -/
theorem filter_markProcessed (batchId : String) (ids : List Nat) :
    ∀ t : List StagingBattingRow,
      (markProcessed t ids).filter (stagingUnprocessed batchId) =
        t.filter (fun r => stagingUnprocessed batchId r && !(ids.contains r.id))
  | [] => rfl
  | r :: t => by
    have ih := filter_markProcessed batchId ids t
    by_cases hc : r.id ∈ ids
    · have hmark : markProcessed (r :: t) ids =
          ({ r with processed := true }) :: markProcessed t ids := by
        simp [markProcessed, hc]
      have h1 : stagingUnprocessed batchId { r with processed := true } = false := by
        simp [stagingUnprocessed]
      have h2 : (stagingUnprocessed batchId r && !(ids.contains r.id)) = false := by
        simp [hc]
      rw [hmark, List.filter_cons, List.filter_cons, h1, h2]
      simp [ih]
    · have hmark : markProcessed (r :: t) ids = r :: markProcessed t ids := by
        simp [markProcessed, hc]
      have h2 : (stagingUnprocessed batchId r && !(ids.contains r.id)) =
          stagingUnprocessed batchId r := by
        simp [hc]
      rw [hmark, List.filter_cons, List.filter_cons, h2, ih]

/-- Each non-final page strictly shrinks the transformer loop's measure:
the page is non-empty, consists of unprocessed rows, and all of its rows
are marked processed. -/
theorem pageSelect_measure_lt (table : List StagingBattingRow) (batchId : String)
    (offset : Nat) (h : pageSelect table batchId offset ≠ []) :
    ((markProcessed table ((pageSelect table batchId offset).map StagingBattingRow.id)).filter
        (stagingUnprocessed batchId)).length - (offset + (pageSelect table batchId offset).length)
      < (table.filter (stagingUnprocessed batchId)).length - offset := by
  set f := table.filter (stagingUnprocessed batchId) with hf
  set rows := pageSelect table batchId offset with hrows
  set ids := rows.map StagingBattingRow.id with hids
  have hsub : rows.Sublist f := by
    rw [hrows, pageSelect, ← hf]
    exact (List.take_sublist _ _).trans (List.drop_sublist _ _)
  have hpos : 0 < rows.length := List.length_pos.mpr h
  have hoff : offset < f.length := by
    by_contra hle
    push_neg at hle
    have hdrop : f.drop offset = [] := List.drop_eq_nil_of_le hle
    rw [hrows, pageSelect, ← hf, hdrop, List.take_nil] at h
    exact h rfl
  have hall : ∀ r ∈ rows, ids.contains r.id = true := by
    intro r hr
    simp only [hids, List.contains_eq_any_beq, List.any_eq_true]
    exact ⟨r.id, List.mem_map_of_mem _ hr, by simp⟩
  rw [filter_markProcessed]
  have hsplit : table.filter (fun r => stagingUnprocessed batchId r && !(ids.contains r.id)) =
      f.filter (fun r => !(ids.contains r.id)) := by
    rw [hf, List.filter_filter]
    exact List.filter_congr fun a _ => by rw [Bool.and_comm]
  rw [hsplit]
  have h1 : rows.length ≤ (f.filter (fun r => ids.contains r.id)).length := by
    have heq : rows.filter (fun r => ids.contains r.id) = rows :=
      List.filter_eq_self.mpr hall
    calc rows.length = (rows.filter (fun r => ids.contains r.id)).length := by rw [heq]
      _ ≤ _ := (hsub.filter _).length_le
  have h2 : (f.filter (fun r => !(ids.contains r.id))).length +
      (f.filter (fun r => ids.contains r.id)).length = f.length := by
    rw [← List.countP_eq_length_filter, ← List.countP_eq_length_filter]
    have h3 := List.length_eq_countP_add_countP
      (p := fun r : StagingBattingRow => ids.contains r.id) (l := f)
    have h4 : List.countP (fun a : StagingBattingRow => decide ¬(ids.contains a.id = true)) f =
        List.countP (fun r : StagingBattingRow => !(ids.contains r.id)) f := by
      apply List.countP_congr
      intro a _
      simp
    omega
  omega

/-- The normalized-side state touched by `transformBattingData`: the
`teams`, `players`, `games` and `batter_game_stats` tables. -/
structure TransformDb where
  teams : List String
  players : List String
  games : List GameInsert
  batterStats : List BatterStatsInsert
deriving DecidableEq

/-- The local accumulators of `transformBattingData` (`games` Map,
`players`/`teams` Sets), which live outside the page loop and keep JS
insertion order. -/
structure TransformAcc where
  games : List (String × GameInsert)
  players : List String
  teams : List String
deriving DecidableEq

/-- Insert-if-absent preserving first-insertion order (JS `Set.add` /
`ON CONFLICT DO NOTHING`). -/
def addUnique (l : List String) (x : String) : List String :=
  if l.contains x then l else l ++ [x]

/-- `upsertTeams` from `src/db/queries/teams.ts`: drop empty/whitespace
ids, then insert each missing id. -/
def upsertTeams (teams : List String) (ids : List String) : List String :=
  (ids.filter (fun i => !(i == "") && !(jsTrim i == ""))).foldl addUnique teams

/-- `upsertPlayers` from `src/db/queries/players.ts`: insert each missing
id. -/
def upsertPlayers (players : List String) (ids : List String) : List String :=
  ids.foldl addUnique players

/-- The entity-collection step run per row of a page
(`src/ingest/transformer.ts` lines 177-200): remember the player, both
teams, and (first row wins) the derived game for a fresh `gid`. -/
def collectRow (acc : TransformAcc) (row : StagingBattingRow) : TransformAcc :=
  let players := if row.player_id == "" then acc.players else addUnique acc.players row.player_id
  let teams1 := if row.team == "" then acc.teams else addUnique acc.teams row.team
  let teams2 := if row.opp == "" then teams1 else addUnique teams1 row.opp
  let games :=
    if row.gid == "" then acc.games
    else if (acc.games.find? (fun p => p.fst == row.gid)).isSome then acc.games
    else acc.games ++ [(row.gid, deriveGame row)]
  { games := games, players := players, teams := teams2 }

/-- The `if (!row.gid || !row.player_id || !row.team) continue` guard of
the stat-upsert loop. -/
def rowValid (row : StagingBattingRow) : Bool :=
  !(row.gid == "") && !(row.player_id == "") && !(row.team == "")

/-- `TransformResult` from `src/ingest/transformer.ts`. -/
structure TransformResult where
  processedRows : Nat
  gamesCreated : Nat
  playersCreated : Nat
  teamsCreated : Nat
deriving DecidableEq

/-- One iteration body of the `transformBattingData` page loop, minus the
page query and the processed-marking: collect entities from the page into
the function-level accumulators, then upsert teams, players, every game
accumulated so far, and the page's valid rows' stat records. -/
def transformPage (rows : List StagingBattingRow) (acc : TransformAcc) (db : TransformDb) :
    TransformAcc × TransformDb :=
  let acc2 := rows.foldl collectRow acc
  let teams2 := upsertTeams db.teams acc2.teams
  let players2 := upsertPlayers db.players acc2.players
  let games2 := acc2.games.foldl (fun s p => upsertGame s p.snd) db.games
  let stats2 := (rows.filter rowValid).foldl
    (fun s row => upsertBatterStats s (batterStatsOfRow row)) db.batterStats
  (acc2, { teams := teams2, players := players2, games := games2, batterStats := stats2 })

/-- The `while (hasMore)` page loop of `transformBattingData`
(`src/ingest/transformer.ts` lines 161-266): query a page of unprocessed
rows at the current OFFSET, stop when empty; otherwise process the page,
mark exactly its rows processed, and continue with
`offset += rows.length`. -/
def transformLoop (batchId : String) (table : List StagingBattingRow) (db : TransformDb)
    (acc : TransformAcc) (offset : Nat) (processedRows : Nat) :
    List StagingBattingRow × TransformDb × TransformAcc × Nat :=
  let rows := pageSelect table batchId offset
  if h : rows = [] then
    (table, db, acc, processedRows)
  else
    let step := transformPage rows acc db
    let table2 := markProcessed table (rows.map StagingBattingRow.id)
    transformLoop batchId table2 step.2 step.1 (offset + rows.length)
      (processedRows + (rows.filter rowValid).length)
termination_by (table.filter (stagingUnprocessed batchId)).length - offset
decreasing_by
  exact pageSelect_measure_lt table batchId offset h

/-- `transformBattingData` from `src/ingest/transformer.ts`: run the page
loop from offset 0 with empty accumulators and report the processed-row
count and the accumulator sizes. -/
def transformBattingData (table : List StagingBattingRow) (db : TransformDb)
    (batchId : String) : List StagingBattingRow × TransformDb × TransformResult :=
  let r := transformLoop batchId table db { games := [], players := [], teams := [] } 0 0
  (r.1, r.2.1,
   { processedRows := r.2.2.2
     gamesCreated := r.2.2.1.games.length
     playersCreated := r.2.2.1.players.length
     teamsCreated := r.2.2.1.teams.length })

/-- Outcome of one `ingestYear` run, mirroring the `skipped`/`error` shape
of `UnifiedIngestResult` (`src/ingest/index.ts`): the function returns a
result value in every case and never rethrows. -/
inductive IngestOutcome where
  | skipped
  | ok (battingBatchId pitchingBatchId : Nat)
  | failed (battingBatchId pitchingBatchId : Nat) (error : String)
deriving DecidableEq

/-- The store state threaded through `ingestYear`: batch bookkeeping,
batting staging rows, and the normalized tables. -/
structure PipelineState where
  batches : List IngestionBatchRow
  stagingBatting : List StagingBattingRow
  db : TransformDb
deriving DecidableEq

/-- `ingestYear` from `src/ingest/index.ts` (the unified-file path):
short-circuit when both domains already have a completed batch (unless
forced); otherwise create the two per-domain batch records and run the
`try` block.  The `try` block's interior — download, staging load, the two
transforms, the completion updates and the staging cleanup — is driven by
external collaborators and is passed in as `body`, receiving the two fresh
batch ids and the state after batch creation; it either succeeds or raises
an error message, in both cases leaving the store in some new state.  The
`catch` handler (lines 119-137) is embedded concretely: it marks both
batches `failed` with the captured message and returns a result carrying
the error. -/
def ingestYearSourceFile (year : Int) : String :=
  "playing-" ++ toString year ++ ".csv"

/-- Lines 52-53 of `ingestYear`: create the batting batch, then the
pitching batch; returns both fresh ids and the state after creation. -/
def ingestYearCreated (s : PipelineState) (year : Int) : Nat × Nat × PipelineState :=
  let c1 := createIngestionBatch s.batches "batting" year (ingestYearSourceFile year)
  let c2 := createIngestionBatch c1.2 "pitching" year (ingestYearSourceFile year)
  (c1.1, c2.1, { s with batches := c2.2 })

def ingestYear (body : Nat → Nat → PipelineState → Except String Unit × PipelineState)
    (force : Bool) (s : PipelineState) (year : Int) : IngestOutcome × PipelineState :=
  let battingExists := hasCompletedIngestion s.batches "batting" year
  let pitchingExists := hasCompletedIngestion s.batches "pitching" year
  if !force && battingExists && pitchingExists then
    (IngestOutcome.skipped, s)
  else
    let created := ingestYearCreated s year
    match body created.1 created.2.1 created.2.2 with
    | (Except.ok _, s3) => (IngestOutcome.ok created.1 created.2.1, s3)
    | (Except.error e, s3) =>
      let b1 := updateIngestionBatch s3.batches created.1
        { status := some "failed", errorMessage := some e }
      let b2 := updateIngestionBatch b1 created.2.1
        { status := some "failed", errorMessage := some e }
      (IngestOutcome.failed created.1 created.2.1 e, { s3 with batches := b2 })

/-! Concrete records used to instantiate the claims on executable input. -/

/-- A batter stat record with every counting stat zero. -/
def zeroBatter : BatterGameStats :=
  { id := 0, game_id := "G0", player_id := "P0", team_id := "T0", is_home := true
    opponent_id := none, plate_appearances := 0, at_bats := 0, runs := 0, hits := 0
    doubles := 0, triples := 0, home_runs := 0, runs_batted_in := 0, sacrifice_hits := 0
    sacrifice_flies := 0, hit_by_pitch := 0, walks := 0, intentional_walks := 0
    strikeouts := 0, stolen_bases := 0, caught_stealing := 0, grounded_into_dp := 0
    reached_on_interference := 0, reached_on_error := 0, is_dh := false, is_ph := false
    is_pr := false, team_won := none, team_lost := none, team_tied := none
    stat_type := none, lineup_position := none, batting_seq := none }

/-- A pitcher stat record with every counting stat zero. -/
def zeroPitcher : PitcherGameStats :=
  { id := 0, game_id := "G0", player_id := "P0", team_id := "T0", is_home := true
    opponent_id := none, outs_pitched := 0, batters_faced := 0, hits_allowed := 0
    doubles_allowed := 0, triples_allowed := 0, home_runs_allowed := 0, runs_allowed := 0
    earned_runs := 0, walks := 0, intentional_walks := 0, strikeouts := 0
    hit_batters := 0, wild_pitches := 0, balks := 0, sacrifice_hits_allowed := 0
    sacrifice_flies_allowed := 0, stolen_bases_allowed := 0, caught_stealing := 0
    won := false, lost := false, saved := false, game_started := false
    game_finished := false, complete_game := false, team_won := none, team_lost := none
    team_tied := none, stat_type := none, pitching_seq := none }

/-- The pitching record of spec §8 Scenario B: a 9-inning complete-game win
(27 outs, 10 strikeouts, 1 earned run, 1 walk, 4 hits); all other stats
zero. -/
def scenarioBStats : PitcherGameStats :=
  { zeroPitcher with outs_pitched := 27, strikeouts := 10, won := true, earned_runs := 1
                     walks := 1, hits_allowed := 4, complete_game := true
                     game_started := true, game_finished := true, batters_faced := 30 }

/-- The ruleset of spec §8 Scenario B: `outs_pitched` 1 point per 3 units,
`strikeouts` 1, `won` 5, `earned_runs` -2, `walks` -1, `hits_allowed` -0.5,
plus a `Complete Game` bonus of +3 when `complete_game eq 1`. -/
def scenarioBRuleset : FantasyRuleset :=
  { id := "scenario-b", name := "Scenario B"
    batting := []
    pitching := [
      { stat := "outs_pitched", points := 1, perUnit := some 3 },
      { stat := "strikeouts", points := 1 },
      { stat := "won", points := 5 },
      { stat := "earned_runs", points := -2 },
      { stat := "walks", points := -1 },
      { stat := "hits_allowed", points := -1/2 }]
    bonuses := some [
      { name := "Complete Game"
        conditions := [{ stat := "complete_game", op := BonusOp.eq, value := 1 }]
        logic := BonusLogic.AND
        points := 3 }] }

/-- A bonus whose only condition names `walks`, a stat name present in both
domain mapping tables. -/
def sharedNameBonus : BonusRule :=
  { name := "Patience"
    conditions := [{ stat := "walks", op := BonusOp.gte, value := 1 }]
    logic := BonusLogic.AND
    points := 2 }

/-- A ruleset whose only content is `sharedNameBonus`. -/
def sharedNameRuleset : FantasyRuleset :=
  { id := "shared", name := "shared", batting := [], pitching := []
    bonuses := some [sharedNameBonus] }

/-- A bonus whose only condition names `toString`, a name in neither
domain's mapping table but inherited by every plain object from
`Object.prototype`. -/
def protoBonus : BonusRule :=
  { name := "Proto"
    conditions := [{ stat := "toString", op := BonusOp.lte, value := 5 }]
    logic := BonusLogic.AND
    points := 4 }

/-- A ruleset whose only content is `protoBonus`. -/
def protoRuleset : FantasyRuleset :=
  { id := "proto", name := "proto", batting := [], pitching := []
    bonuses := some [protoBonus] }

/-- A batter with 2 walks. -/
def walksBatter : BatterGameStats := { zeroBatter with walks := 2 }

/-- A pitcher with 1 walk. -/
def walksPitcher : PitcherGameStats := { zeroPitcher with walks := 1 }

/-- A game first written with `has_box = false, has_pbp = true` (spec §8
flag OR-merge scenario). -/
def orMergeGameA : GameInsert :=
  { game_id := "NYA202304010", game_date := "2023-04-01", game_number := 0
    site := some "NYC01", home_team_id := some "NYA", away_team_id := some "BOS"
    game_type := some "R", has_box := false, has_pbp := true }

/-- A later row for the same game asserting `has_box = true,
has_pbp = false`. -/
def orMergeGameB : GameInsert :=
  { orMergeGameA with has_box := true, has_pbp := false }

/-- A staging row whose `box` and `pbp` columns are both the token `1`. -/
def tokenOneRow : StagingBattingRow :=
  { id := 1, batch_id := "batch-1", source_file := "playing-1975.csv", row_num := 1
    gid := "NYA197504100", player_id := "howarel01", team := "NYA"
    game_date := "1975-04-10", game_number := "0", site := "NYC01", vishome := "H"
    opp := "BOS", b_pa := "4", b_ab := "4", b_r := "1", b_h := "2", b_d := "0"
    b_t := "0", b_hr := "1", b_rbi := "2", b_sh := "0", b_sf := "0", b_hbp := "0"
    b_w := "0", b_iw := "0", b_k := "1", b_sb := "0", b_cs := "0", b_gdp := "0"
    b_xi := "0", b_roe := "0", dh := "0", ph := "0", pr := "0", win := "1"
    loss := "0", tie := "0", gametype := "R", box := "1", pbp := "1"
    stattype := "", b_lp := "4", b_seq := "1", processed := false }

/-- Staging row number `i` of a uniform 501-row batch: all rows share one
`batch_id`, one game and one team, carry non-empty `gid`/`player_id`/`team`
(so every row passes the stat-upsert guard), and start unprocessed. -/
def c1Row (i : Nat) : StagingBattingRow :=
  { id := i, batch_id := "batch-1", source_file := "playing-1975.csv", row_num := i
    gid := "NYA197504100", player_id := "p", team := "NYA"
    game_date := "1975-04-10", game_number := "0", site := "", vishome := "H"
    opp := "BOS", b_pa := "4", b_ab := "4", b_r := "0", b_h := "1", b_d := "0"
    b_t := "0", b_hr := "0", b_rbi := "0", b_sh := "0", b_sf := "0", b_hbp := "0"
    b_w := "0", b_iw := "0", b_k := "0", b_sb := "0", b_cs := "0", b_gdp := "0"
    b_xi := "0", b_roe := "0", dh := "0", ph := "0", pr := "0", win := ""
    loss := "", tie := "", gametype := "R", box := "", pbp := ""
    stattype := "", b_lp := "", b_seq := "", processed := false }

/-- A staging batch of `n` unprocessed rows in id order. -/
def c1Table (n : Nat) : List StagingBattingRow :=
  (List.range n).map c1Row

/-- An empty normalized store. -/
def emptyDb : TransformDb :=
  { teams := [], players := [], games := [], batterStats := [] }

/-- A normalized batter stat row used to represent data written by earlier
pages of a failed run. -/
def earlierPageStats : BatterStatsInsert :=
  batterStatsOfRow (c1Row 0)

/-- A `try`-block body that writes one normalized row and then raises. -/
def failingBody : Nat → Nat → PipelineState → Except String Unit × PipelineState :=
  fun _ _ st =>
    (Except.error "fetch failed",
     { st with db := { st.db with batterStats := [earlierPageStats] } })

/-- An empty pipeline store. -/
def emptyPipeline : PipelineState :=
  { batches := [], stagingBatting := [], db := emptyDb }

/-- The state in which `failingBody` raises, starting from `emptyPipeline`
after batch creation. -/
def failingBodyFinal : PipelineState :=
  { (ingestYearCreated emptyPipeline 1975).2.2 with
    db := { (ingestYearCreated emptyPipeline 1975).2.2.db with
            batterStats := [earlierPageStats] } }

/-! Theorems settling the specification claims. -/

/-- The floor used by `jsRound` agrees with Mathlib's `Int.floor` on ℚ. -/
theorem jsRound_eq (q : ℚ) : jsRound q = ((⌊q + 1 / 2⌋ : ℤ) : ℚ) := rfl

/-- The zero of the `JsNum` instances is the numeric 0. -/
theorem jsNum_zero : (0 : JsNum) = JsNum.num 0 := rfl

/-- A numeric literal in `JsNum` is the corresponding rational literal. -/
theorem jsNum_ofNat (n : ℕ) :
    (OfNat.ofNat n : JsNum) = JsNum.num (OfNat.ofNat n) := rfl

/-- The `+` of the `Add JsNum` instance is `JsNum.add`. -/
theorem jsNum_add_def (a b : JsNum) : a + b = JsNum.add a b := rfl

set_option maxHeartbeats 4000000

/-- C3: scoring the Scenario B pitching record (27 outs, 10 strikeouts, a
win, 1 earned run, 1 walk, 4 hits allowed, complete game) against the
Scenario B rules plus the `Complete Game` bonus yields a base of 19 points
and a total of 22, with the bonus listed in `bonusesApplied` and a
`bonus:Complete Game` entry closing the breakdown. -/
theorem spec_C3_scenarioB :
    (calculatePitchingPoints scenarioBStats scenarioBRuleset).totalPoints = 22 ∧
    (calculatePitchingPoints scenarioBStats
        { scenarioBRuleset with bonuses := none }).totalPoints = 19 ∧
    (calculatePitchingPoints scenarioBStats scenarioBRuleset).bonusesApplied =
      ["Complete Game"] ∧
    ((calculatePitchingPoints scenarioBStats scenarioBRuleset).breakdown.map
        PointBreakdown.stat) =
      ["outs_pitched", "strikeouts", "won", "earned_runs", "walks", "hits_allowed",
       "bonus:Complete Game"] := by
  refine ⟨?_, ?_, ?_, ?_⟩ <;>
    norm_num [calculatePitchingPoints, applyRules, applyBonuses, calculateRulePoints,
      ruleEntry, toJsNum, round2N, JsNum.add, JsNum.mulQ, JsNum.divQ, jsNum_ofNat,
      pitcherField, pitchingStatMapping, evaluateBonusConditions,
      bonusCondResult, bonusNumValue, isPitchingBonus, bonusEntry, scenarioBStats,
      scenarioBRuleset, zeroPitcher, round2, jsRound_eq,
      show "bonus:" ++ "Complete Game" = "bonus:Complete Game" from rfl] <;> rfl

/-- `hasBattingStats` holds exactly when `B_G` parses to a positive
number. -/
theorem hasBattingStats_iff (row : RawPlayingRow) :
    hasBattingStats row = true ↔ 0 < (jsParseInt row.B_G).getD 0 := by
  unfold hasBattingStats
  cases h : jsParseInt row.B_G <;> simp

/-- `hasPitchingStats` holds exactly when `P_G` parses to a positive
number. -/
theorem hasPitchingStats_iff (row : RawPlayingRow) :
    hasPitchingStats row = true ↔ 0 < (jsParseInt row.P_G).getD 0 := by
  unfold hasPitchingStats
  cases h : jsParseInt row.P_G <;> simp

/-- C9: the classifier emits one batting row exactly when `B_G` parses to a
number greater than 0 (a malformed or missing value parses to `none`,
counted as 0), one pitching row exactly when `P_G` does, and never more
than two rows per input row — one of each when both indicators are
positive. -/
theorem spec_C9_classification (row : RawPlayingRow) :
    ((classifyRow row).1.length = if 0 < (jsParseInt row.B_G).getD 0 then 1 else 0) ∧
    ((classifyRow row).2.length = if 0 < (jsParseInt row.P_G).getD 0 then 1 else 0) ∧
    (classifyRow row).1.length + (classifyRow row).2.length ≤ 2 := by
  have hb := hasBattingStats_iff row
  have hp := hasPitchingStats_iff row
  by_cases h1 : hasBattingStats row = true <;> by_cases h2 : hasPitchingStats row = true
  · have hB := hb.mp h1
    have hP := hp.mp h2
    simp [classifyRow, h1, h2, hB, hP]
  · have hB := hb.mp h1
    have hP : ¬ 0 < (jsParseInt row.P_G).getD 0 := fun h => h2 (hp.mpr h)
    simp [classifyRow, h1, h2, hB, hP]
  · have hB : ¬ 0 < (jsParseInt row.B_G).getD 0 := fun h => h1 (hb.mpr h)
    have hP := hp.mp h2
    simp [classifyRow, h1, h2, hB, hP]
  · have hB : ¬ 0 < (jsParseInt row.B_G).getD 0 := fun h => h1 (hb.mpr h)
    have hP : ¬ 0 < (jsParseInt row.P_G).getD 0 := fun h => h2 (hp.mpr h)
    simp [classifyRow, h1, h2, hB, hP]

/-- Mapping the conflict-update over a games list moves `find?` to the
updated image of the found row. -/
theorem find?_map_upsertGame (game : GameInsert) :
    ∀ (store : List GameInsert) (g0 : GameInsert),
      store.find? (fun g => g.game_id == game.game_id) = some g0 →
      (store.map (fun g =>
          if g.game_id == game.game_id then
            { g with has_box := game.has_box || g.has_box
                     has_pbp := game.has_pbp || g.has_pbp }
          else g)).find? (fun g => g.game_id == game.game_id) =
        some { g0 with has_box := game.has_box || g0.has_box
                       has_pbp := game.has_pbp || g0.has_pbp }
  | [], g0 => by intro h; simp at h
  | a :: store, g0 => by
    intro h
    by_cases ha : (a.game_id == game.game_id) = true
    · rw [List.find?_cons_of_pos (p := fun g : GameInsert => g.game_id == game.game_id) _ ha] at h
      have hag : a = g0 := by injection h
      subst hag
      rw [List.map_cons, if_pos ha]
      exact List.find?_cons_of_pos (p := fun g : GameInsert => g.game_id == game.game_id) _ ha
    · rw [List.find?_cons_of_neg (p := fun g : GameInsert => g.game_id == game.game_id) _ ha] at h
      have ih := find?_map_upsertGame game store g0 h
      rw [List.map_cons, if_neg ha,
        List.find?_cons_of_neg (p := fun g : GameInsert => g.game_id == game.game_id) _ ha, ih]

/-- C2: when a game with the incoming `game_id` is already stored,
`upsertGame` leaves every identity field (`game_date`, `game_number`,
`site`, `home_team_id`, `away_team_id`, `game_type`) untouched and replaces
only the two flags with the OR of stored and incoming values — so a flag
already `true` can never fall back to `false`; in particular the
`(false, true)` then `(true, false)` sequence of spec §8 ends
`(true, true)`. -/
theorem spec_C2_upsertGame_or_merge (store : List GameInsert) (game g0 : GameInsert)
    (h : findGame store game.game_id = some g0) :
    (findGame (upsertGame store game) game.game_id =
      some { g0 with has_box := game.has_box || g0.has_box
                     has_pbp := game.has_pbp || g0.has_pbp }) ∧
    findGame (upsertGame (upsertGame [] orMergeGameA) orMergeGameB) "NYA202304010" =
      some { orMergeGameA with has_box := true, has_pbp := true } := by
  constructor
  · unfold findGame at h
    have hpred := List.find?_some h
    have hmem : g0 ∈ store := List.mem_of_find?_eq_some h
    have hany : store.any (fun g => g.game_id == game.game_id) = true :=
      List.any_eq_true.mpr ⟨g0, hmem, hpred⟩
    unfold upsertGame findGame
    rw [if_pos hany]
    exact find?_map_upsertGame game store g0 h
  · decide

/-- Witness for C2 at the spec's own scenario: the stored game
`orMergeGameA` merged with the row `orMergeGameB`. -/
theorem spec_C2_witness :
    findGame (upsertGame [orMergeGameA] orMergeGameB) orMergeGameB.game_id =
      some { orMergeGameA with
             has_box := orMergeGameB.has_box || orMergeGameA.has_box
             has_pbp := orMergeGameB.has_pbp || orMergeGameA.has_pbp } :=
  (spec_C2_upsertGame_or_merge [orMergeGameA] orMergeGameB orMergeGameA (by decide)).1

/-- C4 counterexample: a batch created by `createIngestionBatch` is born in
status `in_progress`, not `pending`; and `updateIngestionBatch` accepts a
status change on a `completed` batch (here back to `pending`), so
`completed` is not terminal. -/
theorem spec_C4_counterexample :
    ((findBatch (createIngestionBatch [] "batting" 1975 "playing-1975.csv").2
        (createIngestionBatch [] "batting" 1975 "playing-1975.csv").1).map
      IngestionBatchRow.status = some "in_progress") ∧
    ("in_progress" ≠ "pending") ∧
    ((findBatch
        (updateIngestionBatch
          (updateIngestionBatch (createIngestionBatch [] "batting" 1975 "playing-1975.csv").2
            (createIngestionBatch [] "batting" 1975 "playing-1975.csv").1
            { status := some "completed" })
          (createIngestionBatch [] "batting" 1975 "playing-1975.csv").1
          { status := some "pending" })
        (createIngestionBatch [] "batting" 1975 "playing-1975.csv").1).map
      IngestionBatchRow.status = some "pending") := by
  decide

/-- C4 amended: a batch is created directly in status `in_progress` (the
schema's `pending` default is always overridden), and `updateIngestionBatch`
applies whatever status it is given unconditionally — it enforces no
monotonicity, so `completed`/`failed` are terminal only by virtue of the
orchestrator's calling discipline, not of the tracker. -/
theorem spec_C4_amended :
    (∀ (store : List IngestionBatchRow) (type sourceFile : String) (year : Int),
      ((createIngestionBatch store type year sourceFile).2.getLast?).map
          IngestionBatchRow.status = some "in_progress") ∧
    (∀ (b : IngestionBatchRow) (u : BatchUpdates),
      (applyBatchUpdate b u).status = u.status.getD b.status) := by
  constructor
  · intro store type sourceFile year
    simp [createIngestionBatch, List.getLast?_concat]
  · intro b u
    rcases hu : u.status with _ | st
    · simp [applyBatchUpdate, hu]
    · by_cases h1 : st = "completed"
      · subst h1
        simp [applyBatchUpdate, hu]
      · by_cases h2 : st = "failed"
        · subst h2
          simp [applyBatchUpdate, hu]
        · simp [applyBatchUpdate, hu, h1, h2]

/-- C5 counterexample: the derived Game's `has_pbp` flag is not computed by
the `parseBool` token rule.  On a staging row whose `pbp` column is the
token `1`, `parseBool` yields `true`, but the derived game has
`has_pbp = false` (the code tests `pbp === 'y' || pbp === 'd'`), while
`has_box` from the same token is `true`. -/
theorem spec_C5_counterexample :
    parseBool (some tokenOneRow.pbp) = true ∧
    (deriveGame tokenOneRow).has_pbp = false ∧
    (deriveGame tokenOneRow).has_box = true :=
  ⟨rfl, rfl, rfl⟩

/-- C5 amended: `parseBool` yields `true` exactly on the tokens `1`,
case-insensitive `true` and case-insensitive `y` (any other, empty or
malformed input — including `null`/`undefined` — gives `false`), and the
derived Game's `has_box` is computed by this rule from the row's `box`
column; `has_pbp`, however, is true exactly when the `pbp` column is
literally `y` or `d`. -/
theorem spec_C5_amended :
    (∀ s : String, parseBool (some s) = true ↔
      (jsTrim s ≠ "" ∧ (s = "1" ∨ jsToLower s = "true" ∨ jsToLower s = "y"))) ∧
    parseBool none = false ∧
    (∀ row : StagingBattingRow, (deriveGame row).has_box = parseBool (some row.box)) ∧
    (∀ row : StagingBattingRow, (deriveGame row).has_pbp =
      (row.pbp == "y" || row.pbp == "d")) := by
  refine ⟨?_, rfl, fun row => rfl, fun row => rfl⟩
  intro s
  by_cases h0 : s = ""
  · subst h0
    have ht : jsTrim "" = "" := rfl
    simp [parseBool, ht]
  · by_cases h1 : jsTrim s = ""
    · simp [parseBool, h0, h1]
    · simp [parseBool, h0, h1, or_assoc]

/-- Folding `all` over a mapped list applies the function pointwise. -/
theorem list_all_map_id {α : Type} (g : α → Bool) :
    ∀ l : List α, (l.map g).all id = l.all g
  | [] => rfl
  | a :: t => by simp [List.all_cons, list_all_map_id g t]

/-- Folding `any` over a mapped list applies the function pointwise. -/
theorem list_any_map_id {α : Type} (g : α → Bool) :
    ∀ l : List α, (l.map g).any id = l.any g
  | [] => rfl
  | a :: t => by simp [List.any_cons, list_any_map_id g t]

/-- The accumulated total of the base pass equals the sum of the points of
its breakdown entries. -/
theorem applyRules_fst (field : String → StatValue) (mapping : String → Option String) :
    ∀ rules : List ScoringRule,
      (applyRules field mapping rules).1 =
        ((applyRules field mapping rules).2.map PointBreakdown.points).sum
  | [] => by simp [applyRules, jsNum_zero]
  | rule :: rest => by
    have ih := applyRules_fst field mapping rest
    simp only [applyRules]
    cases h : calculateRulePoints (field ((mapping rule.stat).getD rule.stat)) rule with
    | some r => simp [h, ih, jsNum_add_def]
    | none => simp [h, ih]

/-- The bonus pass is the filter of the bonus list by
relevance-and-satisfaction, read off as points sum, breakdown entries, and
names. -/
theorem applyBonuses_eq (field : String → StatValue) (rel : BonusRule → Bool) :
    ∀ bonuses : List BonusRule,
      applyBonuses field rel bonuses =
        (((bonuses.filter (fun b => rel b && evaluateBonusConditions field b)).map
            BonusRule.points).sum,
         (bonuses.filter (fun b => rel b && evaluateBonusConditions field b)).map bonusEntry,
         (bonuses.filter (fun b => rel b && evaluateBonusConditions field b)).map
            BonusRule.name)
  | [] => by simp [applyBonuses]
  | b :: rest => by
    have ih := applyBonuses_eq field rel rest
    by_cases h : (rel b && evaluateBonusConditions field b) = true
    · simp [applyBonuses, h, ih, List.filter_cons]
    · simp [applyBonuses, h, ih, List.filter_cons]

/-- C7 counterexample: `toString` is a stat name present in neither
domain's mapping table, yet a bonus whose only condition names it passes
the relevance gate in both domains — the JS `in` operator finds the name
on `Object.prototype` — and is then applied: the inherited method read off
the record is not a number, so the condition compares 0 ≤ 5 and holds.
This refutes the claim that a bonus is evaluated only if some condition
stat name is present in the record's domain stat-name mapping table. -/
theorem spec_C7_counterexample :
    battingStatMapping "toString" = none ∧
    pitchingStatMapping "toString" = none ∧
    isBattingBonus protoBonus = true ∧
    isPitchingBonus protoBonus = true ∧
    (calculateBattingPoints zeroBatter protoRuleset).bonusesApplied = ["Proto"] ∧
    (calculatePitchingPoints zeroPitcher protoRuleset).bonusesApplied = ["Proto"] ∧
    (calculateBattingPoints zeroBatter protoRuleset).totalPoints = 4 := by
  have hle : ((0 : ℚ) ≤ 5) = True := by norm_num
  refine ⟨rfl, rfl, by decide, by decide, ?_, ?_, ?_⟩
  · simp [calculateBattingPoints, applyRules, applyBonuses, isBattingBonus,
      evaluateBonusConditions, bonusCondResult, bonusNumValue, batterField,
      objectPrototypeKeys, protoRuleset, protoBonus, zeroBatter, battingStatMapping,
      hle]
  · simp [calculatePitchingPoints, applyRules, applyBonuses, isPitchingBonus,
      evaluateBonusConditions, bonusCondResult, bonusNumValue, pitcherField,
      objectPrototypeKeys, protoRuleset, protoBonus, zeroPitcher, pitchingStatMapping,
      hle]
  · simp [calculateBattingPoints, applyRules, applyBonuses, isBattingBonus,
      evaluateBonusConditions, bonusCondResult, bonusNumValue, batterField,
      objectPrototypeKeys, protoRuleset, protoBonus, zeroBatter, battingStatMapping,
      bonusEntry, round2N, JsNum.add, jsNum_ofNat, hle]
    norm_num [round2, jsRound_eq]

/-- C7 amended: a bonus is evaluated against a record exactly when some
condition stat name passes the JS `in` test on the domain's mapping
table — an own key of the table or a name inherited from
`Object.prototype` (`toString`, `valueOf`, `hasOwnProperty`, ...); when
evaluated, each condition reads the named stat directly off the record
with every non-numeric value (missing stats, strings, inherited methods)
treated as 0 and booleans coerced to 1/0, conditions combine as `AND` =
all / `OR` = any, and each applied bonus contributes its name to
`bonusesApplied` (in declaration order), a trailing `bonus:<name>`
breakdown entry, and its points to the rounded total. -/
theorem spec_C7_amended (bs : BatterGameStats) (ps : PitcherGameStats)
    (rs : FantasyRuleset) :
    (∀ b : BonusRule,
      isBattingBonus b =
        b.conditions.any (fun c =>
          (battingStatMapping c.stat).isSome || objectPrototypeKeys.contains c.stat)) ∧
    (∀ b : BonusRule,
      isPitchingBonus b =
        b.conditions.any (fun c =>
          (pitchingStatMapping c.stat).isSome || objectPrototypeKeys.contains c.stat)) ∧
    ((calculateBattingPoints bs rs).bonusesApplied =
      ((rs.bonuses.getD []).filter (fun b =>
        isBattingBonus b && evaluateBonusConditions (batterField bs) b)).map
          BonusRule.name) ∧
    ((calculateBattingPoints bs rs).breakdown =
      (calculateBattingPoints bs { rs with bonuses := none }).breakdown ++
        ((rs.bonuses.getD []).filter (fun b =>
          isBattingBonus b && evaluateBonusConditions (batterField bs) b)).map
            bonusEntry) ∧
    ((calculateBattingPoints bs rs).totalPoints =
      round2N (JsNum.add
        (((calculateBattingPoints bs { rs with bonuses := none }).breakdown.map
            PointBreakdown.points).sum)
        (JsNum.num (((rs.bonuses.getD []).filter (fun b =>
            isBattingBonus b && evaluateBonusConditions (batterField bs) b)).map
              BonusRule.points).sum))) ∧
    ((calculatePitchingPoints ps rs).bonusesApplied =
      ((rs.bonuses.getD []).filter (fun b =>
        isPitchingBonus b && evaluateBonusConditions (pitcherField ps) b)).map
          BonusRule.name) ∧
    ((calculatePitchingPoints ps rs).breakdown =
      (calculatePitchingPoints ps { rs with bonuses := none }).breakdown ++
        ((rs.bonuses.getD []).filter (fun b =>
          isPitchingBonus b && evaluateBonusConditions (pitcherField ps) b)).map
            bonusEntry) ∧
    ((calculatePitchingPoints ps rs).totalPoints =
      round2N (JsNum.add
        (((calculatePitchingPoints ps { rs with bonuses := none }).breakdown.map
            PointBreakdown.points).sum)
        (JsNum.num (((rs.bonuses.getD []).filter (fun b =>
            isPitchingBonus b && evaluateBonusConditions (pitcherField ps) b)).map
              BonusRule.points).sum))) ∧
    (∀ (f : String → StatValue) (b : BonusRule),
      evaluateBonusConditions f b =
        (match b.logic with
         | BonusLogic.AND => b.conditions.all (bonusCondResult f)
         | BonusLogic.OR => b.conditions.any (bonusCondResult f))) := by
  refine ⟨fun b => rfl, fun b => rfl, ?_, ?_, ?_, ?_, ?_, ?_, ?_⟩
  · simp [calculateBattingPoints, applyBonuses_eq]
  · simp [calculateBattingPoints, applyBonuses_eq, applyBonuses]
  · simp [calculateBattingPoints, applyBonuses_eq, applyBonuses, applyRules_fst]
  · simp [calculatePitchingPoints, applyBonuses_eq]
  · simp [calculatePitchingPoints, applyBonuses_eq, applyBonuses]
  · simp [calculatePitchingPoints, applyBonuses_eq, applyBonuses, applyRules_fst]
  · intro f b
    unfold evaluateBonusConditions
    cases b.logic
    · exact list_all_map_id (bonusCondResult f) b.conditions
    · exact list_any_map_id (bonusCondResult f) b.conditions

/-- C10: `walks`, `strikeouts` and `caught_stealing` appear in both the
batting and the pitching mapping table, so a bonus whose (non-empty)
condition set uses only these names is classified as relevant to both
domains, and such a bonus fires both when scoring a batter record and when
scoring a pitcher record against the same ruleset. -/
theorem spec_C10_shared_stat_names :
    battingStatMapping "walks" = some "walks" ∧
    battingStatMapping "strikeouts" = some "strikeouts" ∧
    battingStatMapping "caught_stealing" = some "caught_stealing" ∧
    pitchingStatMapping "walks" = some "walks" ∧
    pitchingStatMapping "strikeouts" = some "strikeouts" ∧
    pitchingStatMapping "caught_stealing" = some "caught_stealing" ∧
    (∀ b : BonusRule, b.conditions ≠ [] →
      (∀ c ∈ b.conditions,
        c.stat = "walks" ∨ c.stat = "strikeouts" ∨ c.stat = "caught_stealing") →
      isBattingBonus b = true ∧ isPitchingBonus b = true) ∧
    (calculateBattingPoints walksBatter sharedNameRuleset).bonusesApplied =
      ["Patience"] ∧
    (calculatePitchingPoints walksPitcher sharedNameRuleset).bonusesApplied =
      ["Patience"] := by
  refine ⟨rfl, rfl, rfl, rfl, rfl, rfl, ?_, ?_, ?_⟩
  · intro b hne hall
    obtain ⟨c, hc⟩ := List.exists_mem_of_ne_nil _ hne
    constructor
    · refine List.any_eq_true.mpr ⟨c, hc, ?_⟩
      rcases hall c hc with h | h | h <;> simp [h, battingStatMapping]
    · refine List.any_eq_true.mpr ⟨c, hc, ?_⟩
      rcases hall c hc with h | h | h <;> simp [h, pitchingStatMapping]
  · norm_num [calculateBattingPoints, applyRules, applyBonuses, isBattingBonus,
      evaluateBonusConditions, bonusCondResult, bonusNumValue, batterField,
      walksBatter, zeroBatter, sharedNameRuleset, sharedNameBonus, battingStatMapping,
      objectPrototypeKeys]
  · norm_num [calculatePitchingPoints, applyRules, applyBonuses, isPitchingBonus,
      evaluateBonusConditions, bonusCondResult, bonusNumValue, pitcherField,
      walksPitcher, zeroPitcher, sharedNameRuleset, sharedNameBonus, pitchingStatMapping,
      objectPrototypeKeys]

/-- Witness for C10: the shared-name bonus is classified as relevant to
both domains. -/
theorem spec_C10_witness :
    isBattingBonus sharedNameBonus = true ∧ isPitchingBonus sharedNameBonus = true :=
  spec_C10_shared_stat_names.2.2.2.2.2.2.1 sharedNameBonus (by decide) (by decide)

/-- A batch update never changes the primary key. -/
theorem applyBatchUpdate_batch_id (b : IngestionBatchRow) (u : BatchUpdates) :
    (applyBatchUpdate b u).batch_id = b.batch_id := by
  unfold applyBatchUpdate
  split
  · rfl
  · split <;> rfl

/-- Updating a batch moves `findBatch` on its id to the updated row. -/
theorem findBatch_update (u : BatchUpdates) (i : Nat) :
    ∀ (store : List IngestionBatchRow) (b0 : IngestionBatchRow),
      findBatch store i = some b0 →
      findBatch (updateIngestionBatch store i u) i = some (applyBatchUpdate b0 u)
  | [], b0 => by
    intro h
    simp [findBatch] at h
  | a :: store, b0 => by
    intro h
    unfold findBatch at h ⊢
    unfold updateIngestionBatch
    by_cases ha : (a.batch_id == i) = true
    · rw [List.find?_cons_of_pos (p := fun b : IngestionBatchRow => b.batch_id == i) _ ha] at h
      have hab : a = b0 := by injection h
      subst hab
      rw [List.map_cons, if_pos ha]
      refine List.find?_cons_of_pos (p := fun b : IngestionBatchRow => b.batch_id == i) _ ?_
      show ((applyBatchUpdate a u).batch_id == i) = true
      rw [applyBatchUpdate_batch_id]
      exact ha
    · rw [List.find?_cons_of_neg (p := fun b : IngestionBatchRow => b.batch_id == i) _ ha] at h
      have ih := findBatch_update u i store b0 h
      unfold findBatch updateIngestionBatch at ih
      rw [List.map_cons, if_neg ha,
        List.find?_cons_of_neg (p := fun b : IngestionBatchRow => b.batch_id == i) _ ha]
      exact ih

/-- Updating one batch leaves `findBatch` on any other id unchanged. -/
theorem findBatch_update_ne (u : BatchUpdates) (i j : Nat) (hne : i ≠ j) :
    ∀ store : List IngestionBatchRow,
      findBatch (updateIngestionBatch store j u) i = findBatch store i
  | [] => rfl
  | a :: store => by
    have ih := findBatch_update_ne u i j hne store
    unfold findBatch updateIngestionBatch at ih ⊢
    rw [List.map_cons]
    by_cases ha' : (a.batch_id == j) = true
    · rw [if_pos ha']
      have hid : a.batch_id = j := by simpa using ha'
      have hnot1 : ¬ ((applyBatchUpdate a u).batch_id == i) = true := by
        rw [applyBatchUpdate_batch_id, hid]
        simp [Ne.symm hne]
      have hnot0 : ¬ ((a.batch_id == i) = true) := by
        rw [hid]
        simp [Ne.symm hne]
      rw [List.find?_cons_of_neg (p := fun b : IngestionBatchRow => b.batch_id == i) _ hnot1,
        List.find?_cons_of_neg (p := fun b : IngestionBatchRow => b.batch_id == i) _ hnot0, ih]
    · rw [if_neg ha']
      by_cases hai : (a.batch_id == i) = true
      · rw [List.find?_cons_of_pos (p := fun b : IngestionBatchRow => b.batch_id == i) _ hai,
          List.find?_cons_of_pos (p := fun b : IngestionBatchRow => b.batch_id == i) _ hai]
      · rw [List.find?_cons_of_neg (p := fun b : IngestionBatchRow => b.batch_id == i) _ hai,
          List.find?_cons_of_neg (p := fun b : IngestionBatchRow => b.batch_id == i) _ hai, ih]

/-- The two batch ids minted by `ingestYear` are the current table length
and its successor, hence distinct. -/
theorem ingestYearCreated_ids (s : PipelineState) (year : Int) :
    (ingestYearCreated s year).1 = s.batches.length ∧
    (ingestYearCreated s year).2.1 = s.batches.length + 1 := by
  constructor <;> simp [ingestYearCreated, createIngestionBatch]

/-- C8: when the `try` block of `ingestYear` raises after the two batch
records have been created, the function returns a `failed` result carrying
the message (it does not rethrow), the `catch` handler touches only the two
batch rows — normalized tables and staging rows written before the
exception survive exactly as the body left them — and both the batting and
the pitching batch end in status `failed` with the captured error
message. -/
theorem spec_C8_failure_path
    (body : Nat → Nat → PipelineState → Except String Unit × PipelineState)
    (force : Bool) (s : PipelineState) (year : Int) (e : String) (s3 : PipelineState)
    (hskip : (!force && hasCompletedIngestion s.batches "batting" year &&
      hasCompletedIngestion s.batches "pitching" year) = false)
    (hbody : body (ingestYearCreated s year).1 (ingestYearCreated s year).2.1
      (ingestYearCreated s year).2.2 = (Except.error e, s3)) :
    ((ingestYear body force s year).1 =
      IngestOutcome.failed (ingestYearCreated s year).1 (ingestYearCreated s year).2.1 e) ∧
    ((ingestYear body force s year).2.db = s3.db) ∧
    ((ingestYear body force s year).2.stagingBatting = s3.stagingBatting) ∧
    (∀ b0, findBatch s3.batches (ingestYearCreated s year).1 = some b0 →
      findBatch (ingestYear body force s year).2.batches (ingestYearCreated s year).1 =
        some { b0 with status := "failed", error_message := some e }) ∧
    (∀ b1, findBatch s3.batches (ingestYearCreated s year).2.1 = some b1 →
      findBatch (ingestYear body force s year).2.batches (ingestYearCreated s year).2.1 =
        some { b1 with status := "failed", error_message := some e }) := by
  have hne : (ingestYearCreated s year).1 ≠ (ingestYearCreated s year).2.1 := by
    have h1 := (ingestYearCreated_ids s year).1
    have h2 := (ingestYearCreated_ids s year).2
    rw [h1, h2]
    omega
  have hiy : ingestYear body force s year =
      (IngestOutcome.failed (ingestYearCreated s year).1 (ingestYearCreated s year).2.1 e,
       { s3 with batches :=
          (updateIngestionBatch
            (updateIngestionBatch s3.batches (ingestYearCreated s year).1
              { status := some "failed", errorMessage := some e })
            (ingestYearCreated s year).2.1
            { status := some "failed", errorMessage := some e }) }) := by
    simp only [ingestYear, hskip, Bool.false_eq_true, if_false, hbody]
  refine ⟨by rw [hiy], by rw [hiy], by rw [hiy], ?_, ?_⟩
  · intro b0 h0
    rw [hiy]
    show findBatch
      (updateIngestionBatch
        (updateIngestionBatch s3.batches (ingestYearCreated s year).1
          { status := some "failed", errorMessage := some e })
        (ingestYearCreated s year).2.1
        { status := some "failed", errorMessage := some e })
      (ingestYearCreated s year).1 = _
    rw [findBatch_update_ne _ _ _ hne]
    rw [findBatch_update _ _ s3.batches b0 h0]
    simp [applyBatchUpdate]
  · intro b1 h1
    rw [hiy]
    show findBatch
      (updateIngestionBatch
        (updateIngestionBatch s3.batches (ingestYearCreated s year).1
          { status := some "failed", errorMessage := some e })
        (ingestYearCreated s year).2.1
        { status := some "failed", errorMessage := some e })
      (ingestYearCreated s year).2.1 = _
    have hpre : findBatch
        (updateIngestionBatch s3.batches (ingestYearCreated s year).1
          { status := some "failed", errorMessage := some e })
        (ingestYearCreated s year).2.1 = some b1 := by
      rw [findBatch_update_ne _ _ _ (Ne.symm hne), h1]
    rw [findBatch_update _ _ _ b1 hpre]
    simp [applyBatchUpdate]

/-- Witness for C8: a body that stages one normalized row and then raises
`fetch failed` on an empty store; the run reports the failure and the row
written before the exception survives. -/
theorem spec_C8_witness :
    ((ingestYear failingBody false emptyPipeline 1975).1 =
      IngestOutcome.failed (ingestYearCreated emptyPipeline 1975).1
        (ingestYearCreated emptyPipeline 1975).2.1 "fetch failed") ∧
    ((ingestYear failingBody false emptyPipeline 1975).2.db = failingBodyFinal.db) :=
  ⟨(spec_C8_failure_path failingBody false emptyPipeline 1975 "fetch failed"
      failingBodyFinal (by decide) rfl).1,
   (spec_C8_failure_path failingBody false emptyPipeline 1975 "fetch failed"
      failingBodyFinal (by decide) rfl).2.1⟩

/-- The page loop stops when the page query comes back empty. -/
theorem transformLoop_stop (batchId : String) (table : List StagingBattingRow)
    (db : TransformDb) (acc : TransformAcc) (offset processedRows : Nat)
    (h : pageSelect table batchId offset = []) :
    transformLoop batchId table db acc offset processedRows =
      (table, db, acc, processedRows) := by
  rw [transformLoop]
  simp [h]

/-- One non-final iteration of the page loop: process the page, mark its
rows, advance the OFFSET by the page length. -/
theorem transformLoop_step (batchId : String) (table : List StagingBattingRow)
    (db : TransformDb) (acc : TransformAcc) (offset processedRows : Nat)
    (h : pageSelect table batchId offset ≠ []) :
    transformLoop batchId table db acc offset processedRows =
      transformLoop batchId
        (markProcessed table ((pageSelect table batchId offset).map StagingBattingRow.id))
        (transformPage (pageSelect table batchId offset) acc db).2
        (transformPage (pageSelect table batchId offset) acc db).1
        (offset + (pageSelect table batchId offset).length)
        (processedRows + ((pageSelect table batchId offset).filter rowValid).length) := by
  rw [transformLoop]
  simp [h]

/-- Every row of the uniform batch matches the unprocessed-page
predicate. -/
theorem c1_filter_unproc (as : List Nat) :
    (as.map c1Row).filter (stagingUnprocessed "batch-1") = as.map c1Row := by
  apply List.filter_eq_self.mpr
  intro r hr
  obtain ⟨i, _, rfl⟩ := List.mem_map.mp hr
  rfl

/-- Every row of the uniform batch passes the stat-upsert guard. -/
theorem c1_filter_valid (as : List Nat) :
    (as.map c1Row).filter rowValid = as.map c1Row := by
  apply List.filter_eq_self.mpr
  intro r hr
  obtain ⟨i, _, rfl⟩ := List.mem_map.mp hr
  rfl

/-- The uniform batch's ids are its indices. -/
theorem c1_map_id : ∀ as : List Nat, (as.map c1Row).map StagingBattingRow.id = as
  | [] => rfl
  | i :: as => by
    simp only [List.map_cons]
    rw [c1_map_id as]
    rfl

/-- Marking the first 500 rows of the 501-row batch leaves exactly row 500
in the unprocessed view. -/
theorem c1_mark_filter :
    (markProcessed (c1Table 501) (List.range 500)).filter (stagingUnprocessed "batch-1") =
      [c1Row 500] := by
  rw [filter_markProcessed]
  show (c1Table 501).filter
      (fun r => stagingUnprocessed "batch-1" r && !((List.range 500).contains r.id)) =
    [c1Row 500]
  unfold c1Table
  rw [List.filter_map]
  have hcongr : (List.range 501).filter
      ((fun r => stagingUnprocessed "batch-1" r && !((List.range 500).contains r.id)) ∘ c1Row) =
      (List.range 501).filter (fun i => !((List.range 500).contains i)) := by
    apply List.filter_congr
    intro i _
    show (stagingUnprocessed "batch-1" (c1Row i) && !((List.range 500).contains (c1Row i).id)) = _
    rfl
  rw [hcongr, List.range_succ (n := 500), List.filter_append]
  have h2 : (List.range 500).filter (fun i => !((List.range 500).contains i)) = [] := by
    rw [List.filter_eq_nil_iff]
    intro i hi
    simp [List.contains, hi]
  have h3 : ([500] : List Nat).filter (fun i => !((List.range 500).contains i)) = [500] := by
    simp [List.contains, List.mem_range]
  rw [h2, h3]
  rfl

/-- C1 (code bug): on a batch of 501 unprocessed staging rows — one more
than `TRANSFORM_BATCH_SIZE` — a single invocation of `transformBattingData`
processes only 500 rows and leaves row 500 unprocessed, because the page
query combines `OFFSET offset` with the shrinking `processed = false`
filter: after the first page is marked processed, the query at OFFSET 500
skips over the remaining unprocessed row.  A second invocation on the same
batch therefore processes 1 row, not 0. -/
theorem spec_C1_offset_pagination :
    ((transformBattingData (c1Table 501) emptyDb "batch-1").2.2.processedRows = 500) ∧
    ((transformBattingData (c1Table 501) emptyDb "batch-1").1.filter
        (stagingUnprocessed "batch-1") = [c1Row 500]) ∧
    ((transformBattingData
        ((transformBattingData (c1Table 501) emptyDb "batch-1").1)
        ((transformBattingData (c1Table 501) emptyDb "batch-1").2.1)
        "batch-1").2.2.processedRows = 1) := by
  have hne0 : c1Table 500 ≠ [] := by
    intro h
    have hl := congrArg List.length h
    simp [c1Table] at hl
  have hsel0 : pageSelect (c1Table 501) "batch-1" 0 = c1Table 500 := by
    unfold pageSelect
    have h1 : (c1Table 501).filter (stagingUnprocessed "batch-1") = c1Table 501 :=
      c1_filter_unproc (List.range 501)
    rw [h1, List.drop_zero]
    show (c1Table 501).take TRANSFORM_BATCH_SIZE = c1Table 500
    unfold c1Table TRANSFORM_BATCH_SIZE
    rw [← List.map_take, List.take_range]
    norm_num
  have hne0' : pageSelect (c1Table 501) "batch-1" 0 ≠ [] := by
    rw [hsel0]
    exact hne0
  have hidmap : (c1Table 500).map StagingBattingRow.id = List.range 500 :=
    c1_map_id (List.range 500)
  have hmark1 : (markProcessed (c1Table 501)
      ((c1Table 500).map StagingBattingRow.id)).filter (stagingUnprocessed "batch-1") =
      [c1Row 500] := by
    rw [hidmap]
    exact c1_mark_filter
  have hsel1 : pageSelect (markProcessed (c1Table 501)
      ((c1Table 500).map StagingBattingRow.id)) "batch-1" (0 + (c1Table 500).length) = [] := by
    unfold pageSelect
    rw [hmark1]
    simp [c1Table]
  have htl1 : transformLoop "batch-1" (c1Table 501) emptyDb
      { games := [], players := [], teams := [] } 0 0 =
      (markProcessed (c1Table 501) ((c1Table 500).map StagingBattingRow.id),
       (transformPage (c1Table 500) { games := [], players := [], teams := [] } emptyDb).2,
       (transformPage (c1Table 500) { games := [], players := [], teams := [] } emptyDb).1,
       0 + ((c1Table 500).filter rowValid).length) := by
    rw [transformLoop_step _ _ _ _ _ _ hne0', hsel0,
      transformLoop_stop _ _ _ _ _ _ hsel1]
  have hval : (c1Table 500).filter rowValid = c1Table 500 := c1_filter_valid (List.range 500)
  have hbd1 : transformBattingData (c1Table 501) emptyDb "batch-1" =
      (markProcessed (c1Table 501) ((c1Table 500).map StagingBattingRow.id),
       (transformPage (c1Table 500) { games := [], players := [], teams := [] } emptyDb).2,
       { processedRows := 0 + ((c1Table 500).filter rowValid).length
         gamesCreated :=
           (transformPage (c1Table 500) { games := [], players := [], teams := [] }
             emptyDb).1.games.length
         playersCreated :=
           (transformPage (c1Table 500) { games := [], players := [], teams := [] }
             emptyDb).1.players.length
         teamsCreated :=
           (transformPage (c1Table 500) { games := [], players := [], teams := [] }
             emptyDb).1.teams.length }) := by
    unfold transformBattingData
    rw [htl1]
  refine ⟨?_, ?_, ?_⟩
  · rw [hbd1]
    show 0 + ((c1Table 500).filter rowValid).length = 500
    rw [hval]
    simp [c1Table]
  · rw [hbd1]
    exact hmark1
  · rw [hbd1]
    show (transformBattingData
        (markProcessed (c1Table 501) ((c1Table 500).map StagingBattingRow.id))
        (transformPage (c1Table 500) { games := [], players := [], teams := [] } emptyDb).2
        "batch-1").2.2.processedRows = 1
    have hsel2 : pageSelect (markProcessed (c1Table 501)
        ((c1Table 500).map StagingBattingRow.id)) "batch-1" 0 = [c1Row 500] := by
      unfold pageSelect
      rw [hmark1]
      rfl
    have hne2 : pageSelect (markProcessed (c1Table 501)
        ((c1Table 500).map StagingBattingRow.id)) "batch-1" 0 ≠ [] := by
      rw [hsel2]
      simp
    have hmark2 : (markProcessed
        (markProcessed (c1Table 501) ((c1Table 500).map StagingBattingRow.id))
        (([c1Row 500] : List StagingBattingRow).map StagingBattingRow.id)).filter
        (stagingUnprocessed "batch-1") = [] := by
      rw [show ([c1Row 500] : List StagingBattingRow).map StagingBattingRow.id =
            [500] from rfl]
      rw [filter_markProcessed]
      have hsplit : (markProcessed (c1Table 501)
          ((c1Table 500).map StagingBattingRow.id)).filter
          (fun r => stagingUnprocessed "batch-1" r && !(([500] : List Nat).contains r.id)) =
          ((markProcessed (c1Table 501)
            ((c1Table 500).map StagingBattingRow.id)).filter
            (stagingUnprocessed "batch-1")).filter
            (fun r => !(([500] : List Nat).contains r.id)) := by
        rw [List.filter_filter]
        exact List.filter_congr fun a _ => by rw [Bool.and_comm]
      rw [hsplit, hmark1]
      rfl
    have hsel3 : pageSelect (markProcessed
        (markProcessed (c1Table 501) ((c1Table 500).map StagingBattingRow.id))
        (([c1Row 500] : List StagingBattingRow).map StagingBattingRow.id)) "batch-1"
        (0 + ([c1Row 500] : List StagingBattingRow).length) = [] := by
      unfold pageSelect
      rw [hmark2]
      rfl
    have htl2 : transformLoop "batch-1"
        (markProcessed (c1Table 501) ((c1Table 500).map StagingBattingRow.id))
        (transformPage (c1Table 500) { games := [], players := [], teams := [] } emptyDb).2
        { games := [], players := [], teams := [] } 0 0 =
        (markProcessed
          (markProcessed (c1Table 501) ((c1Table 500).map StagingBattingRow.id))
          (([c1Row 500] : List StagingBattingRow).map StagingBattingRow.id),
         (transformPage [c1Row 500] { games := [], players := [], teams := [] }
           (transformPage (c1Table 500) { games := [], players := [], teams := [] }
             emptyDb).2).2,
         (transformPage [c1Row 500] { games := [], players := [], teams := [] }
           (transformPage (c1Table 500) { games := [], players := [], teams := [] }
             emptyDb).2).1,
         0 + (([c1Row 500] : List StagingBattingRow).filter rowValid).length) := by
      rw [transformLoop_step _ _ _ _ _ _ hne2, hsel2,
        transformLoop_stop _ _ _ _ _ _ hsel3]
    unfold transformBattingData
    rw [htl2]
    rfl

end MLB
